import Mathlib

/-!
Verification of the fitness-backend core against its specification.

The Python sources under `app/` are embedded shallowly: every function is
translated into an executable Lean definition over an explicit model of
Python/JSON values, and the spec's claims are settled as theorems about
those definitions.

Conventions of the embedding:
* JSON values decoded by `json.loads` (and Python scalars flowing through
  the services) are modelled by the inductive type `JsonVal`; Python
  `dict` is an association list, Python `float` is an exact rational.
* Machine-level floating point is modelled by exact rational arithmetic;
  `round` is Python's round-half-to-even on the exact value.
* Fallible Python code (`raise`) returns `Except String`; `None`-returning
  lookups return `Option`.
* Database access (`supabase_client.get/get_one/insert/update`) is
  modelled by pure functions over an explicit list of rows, and the result
  of a fetch that may fail is passed in as an `Except` value.
* Replies of the external completion service are passed in as explicit
  `String` arguments; call counts and sampling temperatures of the calls a
  function makes are returned in an explicit trace.
-/

namespace FitnessBackend

/-- The opening-brace character, kept out of string literals. -/
def lbrace : Char := Char.ofNat 123

/-- The closing-brace character, kept out of string literals. -/
def rbrace : Char := Char.ofNat 125

/-- The double-quote character. -/
def dquote : Char := Char.ofNat 34

/-- The backslash character. -/
def bslash : Char := Char.ofNat 92

/-- Whitespace recognised by Python `str.strip` / JSON, restricted to the
ASCII whitespace that actually occurs in the data. -/
def isPySpace (c : Char) : Bool :=
  c = ' ' || c = '\t' || c = '\n' || c = '\r'

/-- `str.strip()` on a list of characters: drop whitespace from both ends. -/
def stripChars (l : List Char) : List Char :=
  ((l.dropWhile isPySpace).reverse.dropWhile isPySpace).reverse

/-- Python `str.strip()`. -/
def pyStrip (s : String) : String :=
  String.mk (stripChars s.data)

/-- Python `str.lower()`, modelled on ASCII letters (the case-insensitive
comparisons in the claims are exercised on ASCII names). -/
def pyLower (s : String) : String :=
  String.mk (s.data.map Char.toLower)

/-- Model of Python/JSON values: the result of `json.loads` and the shape
of the dynamic `dict` records the services pass around. -/
inductive JsonVal where
  | null : JsonVal
  | bool (b : Bool) : JsonVal
  | int (n : ℤ) : JsonVal
  | float (q : ℚ) : JsonVal
  | str (s : String) : JsonVal
  | arr (xs : List JsonVal) : JsonVal
  | obj (kvs : List (String × JsonVal)) : JsonVal
deriving Inhabited

namespace JsonVal

/-- Python `d.get(key)` on a dict: first binding of the key, if any. -/
def get : JsonVal → String → Option JsonVal
  | .obj kvs, key => (kvs.find? (fun kv => kv.1 = key)).map (·.2)
  | _, _ => none

/-- Python truthiness (`if not parsed:`): `None`, `False`, `0`, `""`,
`[]` and the empty dict are falsy. -/
def truthy : JsonVal → Bool
  | .null => false
  | .bool b => b
  | .int n => n ≠ 0
  | .float q => q ≠ 0
  | .str s => s ≠ ""
  | .arr xs => !xs.isEmpty
  | .obj kvs => !kvs.isEmpty

end JsonVal

/-- Python `isinstance(v, int)` view of a value: Python `bool` is a
subclass of `int`, so `True`/`False` count as `1`/`0`. Floats and
everything else are not `int`s. -/
def asPyInt : JsonVal → Option ℤ
  | .int n => some n
  | .bool b => some (if b then 1 else 0)
  | _ => none

/-- Python `int(x)` on a rational (float) value: truncation toward zero. -/
def pyTruncInt (q : ℚ) : ℤ :=
  if 0 ≤ q then ⌊q⌋ else ⌈q⌉

/-- Python `round(x)` on an exact value: round half to even. -/
def pyRound (q : ℚ) : ℤ :=
  let f := ⌊q⌋
  let r := q - (f : ℚ)
  if r < 1/2 then f
  else if 1/2 < r then f + 1
  else if f % 2 = 0 then f else f + 1

/-- Python `round(x, 1)` on an exact value: round to one decimal place,
half to even. -/
def pyRound1 (q : ℚ) : ℚ :=
  (pyRound (q * 10) : ℚ) / 10

/-- Digits of a decimal literal as a natural number, `none` when the list
is empty or contains a non-digit. -/
def digitsToNat : List Char → Option ℕ
  | [] => none
  | l =>
    l.foldl
      (fun acc c =>
        match acc with
        | none => none
        | some n => if c.isDigit then some (n * 10 + (c.toNat - 48)) else none)
      (some 0)

/-- Model of Python `float(s)` on the decimal literals the services feed
it: optional sign, integer digits, optional fractional digits. Exponents,
`inf` and `nan` never occur in this data and are not modelled. -/
def pyFloatOfString (s : String) : Option ℚ :=
  let l := stripChars s.data
  let (sign, rest) :=
    match l with
    | '-' :: r => ((-1 : ℚ), r)
    | '+' :: r => ((1 : ℚ), r)
    | r => ((1 : ℚ), r)
  let intPart := rest.takeWhile Char.isDigit
  let rest2 := rest.dropWhile Char.isDigit
  match rest2 with
  | [] =>
    (digitsToNat intPart).map (fun n => sign * (n : ℚ))
  | '.' :: fracRest =>
    let fracPart := fracRest.takeWhile Char.isDigit
    if fracRest.dropWhile Char.isDigit ≠ [] then none
    else if intPart = [] ∧ fracPart = [] then none
    else
      let ip : ℚ := ((digitsToNat intPart).getD 0 : ℚ)
      let fp : ℚ := ((digitsToNat fracPart).getD 0 : ℚ) / ((10 : ℚ) ^ fracPart.length)
      some (sign * (ip + fp))
  | _ => none

/-- Python `str(x)`. Exact for the strings, integers and booleans the
services actually stringify; the float/list/dict renderings (never reached
by a claim) approximate Python `repr`. -/
def pyStr : JsonVal → String
  | .str s => s
  | .int n => toString n
  | .bool b => if b then "True" else "False"
  | .null => "None"
  | .float q => toString q.num ++ "/" ++ toString q.den
  | .arr _ => "[...]"
  | .obj _ => "[dict]"

/-- Python `min(allowed, key=lambda x: abs(x - v))`: first element of the
list at minimal absolute distance from `v`. -/
def snapTo (allowed : List ℤ) (v : ℤ) : ℤ :=
  match allowed with
  | [] => v
  | a :: rest =>
    rest.foldl (fun best x => if (x - v).natAbs < (best - v).natAbs then x else best) a

/-! ## JSON decoding (`json.loads`)

A recursive-descent decoder for the JSON subset the completion service
produces (objects, arrays, strings with the common escapes, integer and
decimal numbers, `true`/`false`/`null`).  Exponent notation and `\\u`
escapes never occur in this data and are not modelled. -/

/-- Body of a JSON string after the opening quote: returns the decoded
characters and the remainder after the closing quote. -/
def parseStringBody : List Char → Option (List Char × List Char)
  | [] => none
  | c :: rest =>
    if c = dquote then some ([], rest)
    else if c = bslash then
      match rest with
      | [] => none
      | e :: rest2 =>
        let ec :=
          if e = 'n' then '\n'
          else if e = 't' then '\t'
          else if e = 'r' then '\r'
          else e
        (parseStringBody rest2).map (fun p => (ec :: p.1, p.2))
    else (parseStringBody rest).map (fun p => (c :: p.1, p.2))

/-- A JSON number: optional minus sign, digits, optional fraction. -/
def parseNumber (l : List Char) : Option (JsonVal × List Char) :=
  let (neg, l1) :=
    match l with
    | '-' :: r => (true, r)
    | r => (false, r)
  let ds := l1.takeWhile Char.isDigit
  let l2 := l1.dropWhile Char.isDigit
  match digitsToNat ds with
  | none => none
  | some n =>
    match l2 with
    | '.' :: r =>
      let fs := r.takeWhile Char.isDigit
      let r2 := r.dropWhile Char.isDigit
      match digitsToNat fs with
      | none => none
      | some fn =>
        let q : ℚ := (n : ℚ) + (fn : ℚ) / ((10 : ℚ) ^ fs.length)
        some (.float (if neg then -q else q), r2)
    | _ => some (.int (if neg then -(n : ℤ) else (n : ℤ)), l2)

mutual

/-- JSON value parser, driven by explicit fuel. -/
def parseVal : ℕ → List Char → Option (JsonVal × List Char)
  | 0, _ => none
  | fuel + 1, l =>
    match (l.dropWhile isPySpace) with
    | [] => none
    | c :: rest =>
      if c = dquote then
        (parseStringBody rest).map (fun p => (.str (String.mk p.1), p.2))
      else if c = lbrace then
        (parseObjItems fuel (rest.dropWhile isPySpace) true).map
          (fun p => (.obj p.1, p.2))
      else if c = '[' then
        (parseArrItems fuel (rest.dropWhile isPySpace) true).map
          (fun p => (.arr p.1, p.2))
      else if c = 't' then
        if ['r', 'u', 'e'].isPrefixOf rest then some (.bool true, rest.drop 3) else none
      else if c = 'f' then
        if ['a', 'l', 's', 'e'].isPrefixOf rest then some (.bool false, rest.drop 4) else none
      else if c = 'n' then
        if ['u', 'l', 'l'].isPrefixOf rest then some (.null, rest.drop 3) else none
      else
        parseNumber (c :: rest)

/-- Items of a JSON array after `[`; `first` is true before any item. -/
def parseArrItems : ℕ → List Char → Bool → Option (List JsonVal × List Char)
  | 0, _, _ => none
  | _ + 1, [], _ => none
  | fuel + 1, c :: rest, first =>
    if c = ']' then
      if first then some ([], rest) else none
    else
      match parseVal fuel (c :: rest) with
      | none => none
      | some (v, r) =>
        match r.dropWhile isPySpace with
        | ']' :: r2 => some ([v], r2)
        | ',' :: r2 =>
          (parseArrItems fuel (r2.dropWhile isPySpace) false).map
            (fun p => (v :: p.1, p.2))
        | _ => none

/-- Bindings of a JSON object after the opening brace; `first` is true
before any binding. -/
def parseObjItems : ℕ → List Char → Bool → Option (List (String × JsonVal) × List Char)
  | 0, _, _ => none
  | _ + 1, [], _ => none
  | fuel + 1, c :: rest, first =>
    if c = rbrace then
      if first then some ([], rest) else none
    else if c = dquote then
      match parseStringBody rest with
      | none => none
      | some (key, r) =>
        match r.dropWhile isPySpace with
        | ':' :: r2 =>
          match parseVal fuel r2 with
          | none => none
          | some (v, r3) =>
            match r3.dropWhile isPySpace with
            | c2 :: r4 =>
              if c2 = rbrace then some ([(String.mk key, v)], r4)
              else if c2 = ',' then
                (parseObjItems fuel (r4.dropWhile isPySpace) false).map
                  (fun p => ((String.mk key, v) :: p.1, p.2))
              else none
            | [] => none
        | _ => none
    else none

end

/-- `json.loads`: decode a complete document, allowing only trailing
whitespace. -/
def jsonLoads (s : String) : Option JsonVal :=
  match parseVal (s.length + 2) s.data with
  | some (v, rest) => if (rest.dropWhile isPySpace).isEmpty then some v else none
  | none => none

/-- `AIService._extract_json_object` (also duplicated in
`app/workouts/service.py`): take the slice from the first opening brace
to the LAST closing brace of the reply and `json.loads` it; `None` when
either brace is missing, the slice is empty, or parsing fails. -/
def extractJsonObject (raw : String) : Option JsonVal :=
  let l := raw.data
  match l.findIdx? (· = lbrace), l.reverse.findIdx? (· = rbrace) with
  | some s, some rIdx =>
    let e := l.length - 1 - rIdx
    if e ≤ s then none
    else jsonLoads (String.mk ((l.drop s).take (e + 1 - s)))
  | _, _ => none

/-- Depth-counting scan for the matching closing brace, accumulating the
span seen so far (reversed). -/
def scanBalanced : List Char → ℕ → List Char → Option (List Char)
  | [], _, _ => none
  | c :: r, depth, acc =>
    if c = lbrace then scanBalanced r (depth + 1) (c :: acc)
    else if c = rbrace then
      if depth = 1 then some (c :: acc).reverse
      else scanBalanced r (depth - 1) (c :: acc)
    else scanBalanced r depth (c :: acc)

/-- Modelled from the spec: the gateway "extracts the first balanced
`{...}` span" of the reply and parses it.  This definition follows the
spec's words (the source instead slices from the first opening to the
last closing brace); it exists only to be compared with
`extractJsonObject`. -/
def extractFirstBalancedJson (raw : String) : Option JsonVal :=
  match scanBalanced (raw.data.dropWhile (· ≠ lbrace)) 0 [] with
  | some span => jsonLoads (String.mk span)
  | none => none

/-! ## Structured-workout normalization (`AIService`) -/

/-- One exercise of a normalized structured workout. -/
structure SWExercise where
  name : String
  weight_kg : ℤ
  sets : ℤ
  reps : ℤ
deriving Repr, DecidableEq, Inhabited

/-- A normalized structured workout, the dict returned by
`AIService._normalize_structured_workout`. -/
structure StructuredWorkout where
  version : ℤ
  title : String
  muscle_groups : List String
  exercises : List SWExercise
  calories_burned : Option ℤ
deriving Repr, DecidableEq, Inhabited

/-- `allowed_reps` from `_normalize_structured_workout`. -/
def allowedReps : List ℤ := [5, 8, 10, 12, 15]

/-- `allowed_weight` from `_normalize_structured_workout`. -/
def allowedWeight : List ℤ := [0, 2, 4, 6, 8, 10, 12, 16, 20, 25, 30, 40, 50]

/-- `allowed_sets` from `_normalize_structured_workout`. -/
def allowedSets : List ℤ := [2, 3, 4, 5, 6]

/-- The defaulted integer reading of a dict entry: Python
`if not isinstance(v, int): v = default`. -/
def pyIntOr (v : Option JsonVal) (default : ℤ) : ℤ :=
  match v with
  | some x => (asPyInt x).getD default
  | none => default

/-- Name filter of the `_normalize_structured_workout` loop body: only a
dict whose `name` is a non-blank string passes, and the kept name is
stripped. -/
def itemName (item : JsonVal) : Option String :=
  match item, item.get "name" with
  | .obj _, some (.str name) =>
    if pyStrip name = "" then none else some (pyStrip name)
  | _, _ => none

/-- Loop body of `_normalize_structured_workout` over one raw exercise
entry: skip non-dicts and blank/non-string names, snap the numeric
fields. -/
def normalizeExerciseItem (item : JsonVal) : Option SWExercise :=
  (itemName item).map (fun name =>
    { name := name
      weight_kg := snapTo allowedWeight (pyIntOr (item.get "weight_kg") 4)
      sets := snapTo allowedSets (pyIntOr (item.get "sets") 3)
      reps := snapTo allowedReps (pyIntOr (item.get "reps") 12) })

/-- Calories handling of `_normalize_structured_workout` (lines
1124-1141): booleans are dropped, ints kept, floats truncated, numeric
strings parsed; a surviving number is clamped to `[20, 2000]`. -/
def normalizeCalories (v : Option JsonVal) : Option ℤ :=
  let c : Option ℤ :=
    match v with
    | some (.bool _) => none
    | some (.int n) => some n
    | some (.float q) => some (pyTruncInt q)
    | some (.str s) => (pyFloatOfString s).map pyTruncInt
    | _ => none
  c.map (fun n => max 20 (min 2000 n))

/-- Title handling of `_normalize_structured_workout` (lines 1076-1078):
non-strings and blank strings fall back to the placeholder. -/
def normTitle (raw : JsonVal) : String :=
  match raw.get "title" with
  | some (.str s) => if pyStrip s = "" then "Тренировка" else s
  | _ => "Тренировка"

/-- Version handling of `_normalize_structured_workout` (lines
1080-1082): non-ints and values below 1 become 1. -/
def normVersion (raw : JsonVal) : ℤ :=
  match raw.get "version" with
  | some v =>
    match asPyInt v with
    | some n => if n < 1 then 1 else n
    | none => 1
  | none => 1

/-- Muscle-group handling of `_normalize_structured_workout` (lines
1084-1087): a missing/empty list falls back to the requested group, at
most two entries are kept and each is stringified. -/
def normMuscleGroups (raw : JsonVal) (fallbackMuscleGroup : String) : List String :=
  let muscleGroupsRaw : List JsonVal :=
    match raw.get "muscle_groups" with
    | some (.arr l) => if l.isEmpty then [.str fallbackMuscleGroup] else l
    | _ => [.str fallbackMuscleGroup]
  (muscleGroupsRaw.take 2).map pyStr

/-- `AIService._normalize_structured_workout` (lines 1068-1149): a
missing/empty raw exercise list and a post-filter empty exercise list
are both hard errors. -/
def normalizeStructuredWorkout (raw : JsonVal) (fallbackMuscleGroup : String) :
    Except String StructuredWorkout :=
  match raw.get "exercises" with
  | some (.arr exl) =>
    if exl.isEmpty then .error "structured workout has empty exercises"
    else
      let exercises := (exl.take 12).filterMap normalizeExerciseItem
      if exercises.isEmpty then .error "structured workout has no valid exercises"
      else
        .ok
          { version := normVersion raw
            title := pyStrip (normTitle raw)
            muscle_groups := normMuscleGroups raw fallbackMuscleGroup
            exercises := exercises
            calories_burned := normalizeCalories (raw.get "calories_burned") }
  | _ => .error "structured workout has empty exercises"

/-- `AIService._normalize_exercise`: the standalone single-exercise
variant, raising on a blank/non-string name (same name filter and
snapping as the loop body). -/
def normalizeExercise (raw : JsonVal) : Except String SWExercise :=
  match itemName raw with
  | none => .error "exercise has empty name"
  | some name =>
    .ok
      { name := name
        weight_kg := snapTo allowedWeight (pyIntOr (raw.get "weight_kg") 4)
        sets := snapTo allowedSets (pyIntOr (raw.get "sets") 3)
        reps := snapTo allowedReps (pyIntOr (raw.get "reps") 12) }

/-- `model_dump()` of one normalized exercise. -/
def SWExercise.toJson (e : SWExercise) : JsonVal :=
  .obj
    [("name", .str e.name), ("weight_kg", .int e.weight_kg),
     ("sets", .int e.sets), ("reps", .int e.reps)]

/-- The dict literal `_normalize_structured_workout` returns. -/
def StructuredWorkout.toJson (w : StructuredWorkout) : JsonVal :=
  .obj
    [("version", .int w.version), ("title", .str w.title),
     ("muscle_groups", .arr (w.muscle_groups.map .str)),
     ("exercises", .arr (w.exercises.map SWExercise.toJson)),
     ("calories_burned",
       match w.calories_burned with
       | some c => .int c
       | none => .null)]

/-! ## Generation gateway flows (`AIService`) -/

/-- Python `if not parsed:` on the result of `_extract_json_object`:
`None` and the (falsy) empty dict both count as no parse. -/
def pyTruthyOpt (v : Option JsonVal) : Bool :=
  match v with
  | some x => x.truthy
  | none => false

/-- Outcome of the free-text-JSON parse flow of
`generate_workout_structured`, with the temperature of every repair
request it issued. -/
structure StructuredGenOutcome where
  result : Except String StructuredWorkout
  repairTemperatures : List ℚ
deriving Repr

/-- Parse-or-repair-or-fail flow of `generate_workout_structured` (lines
160-216): `raw` is the stripped first reply and `repairedRaw` the
stripped reply to the single repair request, which the code issues at
temperature `0.0`; a second parse failure raises. -/
def generateWorkoutStructuredParse (raw repairedRaw : String) (chosenGroup : String) :
    StructuredGenOutcome :=
  let parsed := extractJsonObject raw
  if pyTruthyOpt parsed then
    ⟨normalizeStructuredWorkout (parsed.getD .null) chosenGroup, []⟩
  else
    let reparsed := extractJsonObject repairedRaw
    if pyTruthyOpt reparsed then
      ⟨normalizeStructuredWorkout (reparsed.getD .null) chosenGroup, [0]⟩
    else
      ⟨.error "AI returned invalid JSON for structured workout", [0]⟩

/-- Outcome of `generate_workout_exercise`, with the number of completion
calls made and the sampling temperature of each. -/
structure GenExerciseOutcome where
  result : Except String SWExercise
  numCalls : ℕ
  temperatures : List ℚ
deriving Repr

/-- `AIService.generate_workout_exercise` (lines 338-380): the supplied
existing names only flavour the prompt; the function makes exactly one
completion call at temperature `0.4`, parses the stripped reply and
normalizes it, raising when the reply is not valid JSON. -/
def generateWorkoutExercise (existingExerciseNames : List String) (reply : String) :
    GenExerciseOutcome :=
  let _ := existingExerciseNames
  let raw := pyStrip reply
  let parsed := extractJsonObject raw
  if pyTruthyOpt parsed then
    ⟨normalizeExercise (parsed.getD .null), 1, [2/5]⟩
  else
    ⟨.error "AI returned invalid JSON for exercise", 1, [2/5]⟩

/-! ## Attendance (`app/attendance/service.py` and
`AIService._calculate_attendance`) -/

/-- Modelled from the spec: `WORKOUT_SPLITS` lives in
`app/ai/prompts.py`, which is absent from the sources.  The spec
describes it as a frequency → muscle-groups table for weekly training
frequencies; the concrete labels are representative. -/
def WORKOUT_SPLITS : ℤ → Option (List String)
  | 1 => some ["Все тело"]
  | 2 => some ["Верх тела", "Низ тела"]
  | 3 => some ["Грудь, трицепс", "Спина, бицепс", "Ноги, плечи"]
  | 4 => some ["Грудь, трицепс", "Спина, бицепс", "Ноги", "Плечи, пресс"]
  | 5 => some ["Грудь", "Спина", "Ноги", "Плечи", "Руки, пресс"]
  | _ => none

/-- Modelled from the spec: `SPLIT_DESCRIPTIONS` lives in
`app/ai/prompts.py`, which is absent from the sources; one description
string per weekly frequency. -/
def SPLIT_DESCRIPTIONS : ℤ → Option String
  | 1 => some "1 день: все тело"
  | 2 => some "2 дня: верх/низ"
  | 3 => some "3 дня: грудь+трицепс / спина+бицепс / ноги+плечи"
  | 4 => some "4 дня: грудь+трицепс / спина+бицепс / ноги / плечи+пресс"
  | 5 => some "5 дней: грудь / спина / ноги / плечи / руки+пресс"
  | _ => none

/-- Leap-year rule of the Gregorian calendar (as used by `datetime`). -/
def isLeapYear (y : ℕ) : Bool :=
  y % 4 = 0 ∧ (y % 100 ≠ 0 ∨ y % 400 = 0)

/-- Days before month `m` (1-12) in a non-leap year. -/
def cumDaysBeforeMonth (m : ℕ) : ℕ :=
  [0, 31, 59, 90, 120, 151, 181, 212, 243, 273, 304, 334].getD (m - 1) 0

/-- Length of month `m` of year `y`. -/
def daysInMonth (y m : ℕ) : ℕ :=
  if m = 2 then (if isLeapYear y then 29 else 28)
  else [31, 28, 31, 30, 31, 30, 31, 31, 30, 31, 30, 31].getD (m - 1) 0

/-- Proleptic-Gregorian ordinal day of `y-m-d` (the value `datetime`
orders by). -/
def ordinalDay (y m d : ℕ) : ℤ :=
  (365 * (y - 1) + (y - 1) / 4 - (y - 1) / 100 + (y - 1) / 400
    + cumDaysBeforeMonth m + (if 2 < m ∧ isLeapYear y then 1 else 0) + d : ℕ)

/-- A fixed-width run of digits as a number, with the remainder. -/
def takeDigitsNat (n : ℕ) (l : List Char) : Option (ℕ × List Char) :=
  let ds := l.take n
  if ds.length = n ∧ ds.all Char.isDigit then
    (digitsToNat ds).map (fun v => (v, l.drop n))
  else none

/-- Model of `datetime.fromisoformat` at day granularity: a valid
`YYYY-MM-DD` prefix followed by nothing or by a `T`/space time-of-day
part (whose sub-day value the attendance window comparison does not
need); `none` models the `ValueError` raised on malformed input. -/
def parseIsoDate (s : String) : Option ℤ :=
  match takeDigitsNat 4 s.data with
  | none => none
  | some (y, r1) =>
    match r1 with
    | '-' :: r2 =>
      match takeDigitsNat 2 r2 with
      | none => none
      | some (m, r3) =>
        match r3 with
        | '-' :: r4 =>
          match takeDigitsNat 2 r4 with
          | none => none
          | some (d, r5) =>
            if 1 ≤ y ∧ 1 ≤ m ∧ m ≤ 12 ∧ 1 ≤ d ∧ d ≤ daysInMonth y m then
              match r5 with
              | [] => some (ordinalDay y m d)
              | 'T' :: _ => some (ordinalDay y m d)
              | ' ' :: _ => some (ordinalDay y m d)
              | _ => none
            else none
        | _ => none
    | _ => none

/-- `_parse_iso_datetime` from `app/attendance/service.py`: a failed
parse is retried with `Z` replaced by `+00:00`, and `None` is returned
when both attempts fail. -/
def parseIsoDatetime (value : String) : Option ℤ :=
  match parseIsoDate value with
  | some t => some t
  | none => parseIsoDate (value.replace "Z" "+00:00")

/-- Result dict of `AIService._calculate_attendance`. -/
structure AIAttendance where
  real_frequency : ℤ
  total_workouts : ℕ
  average_weekly : ℚ
  recommended_split : List String
deriving Repr, DecidableEq

/-- `datetime.fromisoformat(workout["date"])` mapped over the fetched
rows; `none` models the exception raised by a missing, non-string or
malformed date, which `_calculate_attendance` catches. -/
def datesOfWorkouts : List JsonVal → Option (List ℤ)
  | [] => some []
  | w :: rest =>
    match w.get "date" with
    | some (.str s) =>
      match parseIsoDate s with
      | some t => (datesOfWorkouts rest).map (fun ds => t :: ds)
      | none => none
    | _ => none

/-- The fallback dict of `_calculate_attendance`'s `except` branch. -/
def aiAttendanceFallback : AIAttendance :=
  ⟨3, 0, 0, (WORKOUT_SPLITS 3).getD []⟩

/-- `AIService._calculate_attendance` (lines 929-979): the whole body is
wrapped in `try/except`, so a failing fetch or an unparseable date yields
the fallback; an empty fetch reports frequency 1; otherwise the
count over the trailing 30-day window drives the rounded average. -/
def aiCalculateAttendance (fetch : Except Unit (List JsonVal)) (now : ℤ) : AIAttendance :=
  match fetch with
  | .error _ => aiAttendanceFallback
  | .ok workouts =>
    if workouts.isEmpty then ⟨1, 0, 0, (WORKOUT_SPLITS 1).getD []⟩
    else
      match datesOfWorkouts workouts with
      | none => aiAttendanceFallback
      | some ds =>
        let cutoff := now - 30
        let recent := ds.filter (fun t => cutoff ≤ t)
        let totalWorkouts := recent.length
        let weeksInPeriod : ℚ := 30 / 7
        let averageWeekly : ℚ :=
          if 0 < weeksInPeriod then (totalWorkouts : ℚ) / weeksInPeriod else 0
        let realFrequency := min 5 (max 1 (pyRound averageWeekly))
        ⟨realFrequency, totalWorkouts, pyRound1 averageWeekly,
          (WORKOUT_SPLITS realFrequency).getD ((WORKOUT_SPLITS 3).getD [])⟩

/-- The user fields `calculate_attendance` and its `_should_use_supersets`
helper read (`supersets_enabled = none` models an absent or non-boolean
setting). -/
structure AttUser where
  custom_split_frequency : Option ℤ
  supersets_enabled : Option Bool
  workout_formats : Option String
  level : Option String

/-- Python `pat in s` for strings: some tail of `s` starts with `pat`. -/
def pyIn (pat s : String) : Bool :=
  s.data.tails.any (fun t => pat.data.isPrefixOf t)

/-- `_should_use_supersets` from `app/attendance/service.py` (lines
21-43). -/
def shouldUseSupersets (u : AttUser) : Bool :=
  match u.supersets_enabled with
  | some b => b
  | none =>
    let workoutFormats := pyLower (u.workout_formats.getD "")
    let supersetKeywords := ["суперсет", "superset", "круговая", "circuit", "интенсив", "быстро"]
    let avoidKeywords := ["классическая", "отдых", "медленно", "новичок"]
    let hasSupersetPreference := supersetKeywords.any (fun k => pyIn k workoutFormats)
    let hasAvoidPreference := avoidKeywords.any (fun k => pyIn k workoutFormats)
    if pyIn "классическая" workoutFormats then false
    else
      let level := pyLower (u.level.getD "")
      if level = "новичок" ∨ level = "beginner" then hasSupersetPreference
      else if hasAvoidPreference then false
      else hasSupersetPreference ∨ level = "средний" ∨ level = "продвинутый" ∨ level = "advanced"

/-- Result dict of `calculate_attendance` in `app/attendance/service.py`. -/
structure AttendanceData where
  real_frequency : ℤ
  average_weekly : ℚ
  total_workouts : ℕ
  last_workout_date : Option ℤ
  recommended_split : String
  recommended_split_groups : List String
  custom_split_frequency : Option ℤ
  custom_split_groups : Option (List String)
  is_custom_split : Bool
  supersets_enabled : Bool
deriving Repr, DecidableEq

/-- The counting block of `calculate_attendance` (lines 61-97):
real frequency, one-decimal average, window count and latest date.
Rows whose date is missing or unparseable are silently skipped. -/
def attendanceCore (workouts : List JsonVal) (cutoff : ℤ) : ℤ × ℚ × ℕ × Option ℤ :=
  if workouts.isEmpty then (0, 0, 0, none)
  else
    let parsedDates := workouts.filterMap (fun w =>
      match w.get "date" with
      | some (.str s) => parseIsoDatetime s
      | _ => none)
    let recent := parsedDates.filter (fun t => cutoff ≤ t)
    let totalWorkouts := recent.length
    let weeksInPeriod : ℚ := 30 / 7
    let avg : ℚ := if 0 < weeksInPeriod then (totalWorkouts : ℚ) / weeksInPeriod else 0
    let averageWeekly := pyRound1 avg
    let realFrequency := if 0 < totalWorkouts then min 5 (max 1 (pyRound avg)) else 0
    let lastWorkoutDate := recent.foldl
      (fun acc t =>
        match acc with
        | none => some t
        | some m => if m < t then some t else some m)
      none
    (realFrequency, averageWeekly, totalWorkouts, lastWorkoutDate)

/-- `calculate_attendance` from `app/attendance/service.py` (lines
46-122).  There is no `try/except` around the fetch: a failing fetch
propagates (`Except.error`). -/
def calculateAttendance (fetch : Except Unit (List JsonVal)) (user : AttUser) (now : ℤ) :
    Except Unit AttendanceData :=
  match fetch with
  | .error e => .error e
  | .ok workouts =>
    let days : ℤ := 30
    let cutoff := now - days
    let core := attendanceCore workouts cutoff
    let realFrequency := core.1
    let (isCustomSplit, customSplitGroups) :=
      match user.custom_split_frequency with
      | some cf =>
        (decide (cf ≠ realFrequency),
          some ((WORKOUT_SPLITS cf).getD ((WORKOUT_SPLITS 3).getD [])))
      | none => (false, none)
    let displayFrequency :=
      if isCustomSplit then user.custom_split_frequency.getD realFrequency else realFrequency
    .ok
      { real_frequency := realFrequency
        average_weekly := core.2.1
        total_workouts := core.2.2.1
        last_workout_date := core.2.2.2
        recommended_split := (SPLIT_DESCRIPTIONS displayFrequency).getD ((SPLIT_DESCRIPTIONS 3).getD "")
        recommended_split_groups := (WORKOUT_SPLITS displayFrequency).getD ((WORKOUT_SPLITS 3).getD [])
        custom_split_frequency := user.custom_split_frequency
        custom_split_groups := customSplitGroups
        is_custom_split := isCustomSplit
        supersets_enabled := shouldUseSupersets user }

/-! ## Muscle-group rotation (`app/workouts/service.py`) -/

/-- Cyrillic-aware model of Python `str.lower()` for the characters the
gender/format checks meet. -/
def pyLowerFull (s : String) : String :=
  String.mk (s.data.map (fun c =>
    if 0x410 ≤ c.toNat ∧ c.toNat ≤ 0x42F then Char.ofNat (c.toNat + 0x20)
    else if c.toNat = 0x401 then Char.ofNat 0x451
    else c.toLower))

/-- Modelled from the spec: `MUSCLE_GROUPS_COMBINED` lives in
`app/ai/prompts.py`, which is absent from the sources.  The spec fixes
its shape: an ordered catalogue of distinct labels, some of them
multi-group combinations, of length 6 with `"Спина"` at index 2. -/
def MUSCLE_GROUPS_COMBINED : List String :=
  ["Грудь, трицепс", "Ноги, ягодицы", "Спина", "Плечи, пресс", "Руки",
   "Бицепс бедра, икры"]

/-- Modelled from the spec: `PRO_MUSCLE_SETS_MEN` lives in
`app/ai/prompts.py`, absent from the sources; paired muscle-group sets
for the advanced rotation. -/
def PRO_MUSCLE_SETS_MEN : List (List String) :=
  [["Грудь", "Трицепс"], ["Спина", "Бицепс"], ["Ноги", "Плечи"]]

/-- Modelled from the spec: `PRO_MUSCLE_SETS_WOMEN` lives in
`app/ai/prompts.py`, absent from the sources. -/
def PRO_MUSCLE_SETS_WOMEN : List (List String) :=
  [["Ягодицы", "Ноги"], ["Спина", "Грудь"], ["Плечи", "Руки"]]

/-- The user fields the rotation reads. -/
structure RotUser where
  is_pro : Bool
  gender : Option String
  last_muscle_group : Option String

/-- `_is_female_gender`: falsy values are male, otherwise the stripped,
lowered value must start with `ж`. -/
def isFemaleGender (value : Option String) : Bool :=
  match value with
  | none => false
  | some v =>
    if v = "" then false
    else (pyLowerFull (pyStrip v)).startsWith "ж"

/-- `_get_next_pro_muscle_set` (lines 439-450): match the last group
against a set by joined label or membership, start at `-1` when absent or
unmatched, and advance cyclically. -/
def getNextProMuscleSet (user : RotUser) : List String :=
  let sets := if isFemaleGender user.gender then PRO_MUSCLE_SETS_WOMEN else PRO_MUSCLE_SETS_MEN
  let idx : ℤ :=
    match user.last_muscle_group with
    | none => -1
    | some last =>
      if last = "" then -1
      else
        match sets.findIdx? (fun s => String.intercalate ", " s = last ∨ last ∈ s) with
        | some i => (i : ℤ)
        | none => -1
  let nextIdx := ((idx + 1).toNat) % sets.length
  sets.getD nextIdx []

/-- `get_next_muscle_group_for_user` (lines 453-467): pro users rotate
over paired sets; everyone else over `MUSCLE_GROUPS_COMBINED`, where an
absent or unknown last group falls back to index 0 and a hit advances
cyclically (`rotation.index` raising `ValueError` is the `none` branch of
`findIdx?`). -/
def getNextMuscleGroupForUser (user : RotUser) : String :=
  if user.is_pro then String.intercalate ", " (getNextProMuscleSet user)
  else
    let rotation := MUSCLE_GROUPS_COMBINED
    match user.last_muscle_group with
    | none => rotation.getD 0 ""
    | some last =>
      if last = "" then rotation.getD 0 ""
      else
        match rotation.findIdx? (fun g => g = last) with
        | some currentIndex => rotation.getD ((currentIndex + 1) % rotation.length) ""
        | none => rotation.getD 0 ""

/-! ## Workout lifecycle (`app/workouts/service.py`) and trainer chat
(`app/trainer_chat/service.py`) -/

/-- A row of the `workouts` collection. -/
structure WorkoutRow where
  id : String
  user_id : String
  status : String
  date : String
  workout_type : String
  details : JsonVal
  generation_context : JsonVal
  calories_burned : Option ℤ
  rating : Option ℤ
  updated_at : String
deriving Inhabited

/-- The PostgREST filter `id=eq.{workout_id}, user_id=eq.{user_id},
status=eq.draft` used by the draft mutations. -/
def matchesDraftFilter (workoutId userId : String) (r : WorkoutRow) : Bool :=
  r.id == workoutId && r.user_id == userId && r.status == "draft"

/-- `WorkoutDraftCompleteRequest`: the validated payload of a
complete-draft call (`date` already ISO-formatted, `rating` caller
validated to 1-5). -/
structure CompleteRequest where
  date : String
  details_structured : JsonVal
  calories_burned : Option ℤ
  rating : Option ℤ

/-- The `update_data` dict `complete_workout_draft` applies to a matching
row: status flips to `completed`, date/details/updated_at are rewritten,
calories and rating only when supplied. -/
def applyCompleteUpdate (data : CompleteRequest) (now : String) (r : WorkoutRow) : WorkoutRow :=
  { r with
    status := "completed"
    date := data.date
    details := data.details_structured
    updated_at := now
    calories_burned :=
      match data.calories_burned with
      | some c => some c
      | none => r.calories_burned
    rating :=
      match data.rating with
      | some v => some v
      | none => r.rating }

/-- `complete_workout_draft` (lines 395-421) over an explicit list of
rows: `get_one` with the draft filter, `None` when nothing matches,
otherwise an in-place `update` with the same filter, returning the first
updated row. -/
def completeWorkoutDraft (db : List WorkoutRow) (userId workoutId : String)
    (data : CompleteRequest) (now : String) : Option WorkoutRow × List WorkoutRow :=
  match db.find? (matchesDraftFilter workoutId userId) with
  | none => (none, db)
  | some _ =>
    let newDb := db.map (fun r =>
      if matchesDraftFilter workoutId userId r then applyCompleteUpdate data now r else r)
    let updated := (db.filter (matchesDraftFilter workoutId userId)).map
      (applyCompleteUpdate data now)
    (updated.head?, newDb)

/-- A row of the `trainer_chat_sessions` collection (the fields
`finish`/`revert` read and write). -/
structure SessionRow where
  id : String
  user_id : String
  status : String
  workout_id : Option String
  original_workout_details : Option JsonVal
  updated_at : String

/-- The two collections the trainer chat touches. -/
structure TrainerChatState where
  workouts : List WorkoutRow
  sessions : List SessionRow

/-- Pydantic's lax reading of an `int` field: ints, integral floats and
integral numeric strings; booleans are rejected. -/
def pydInt : JsonVal → Option ℤ
  | .int n => some n
  | .float q => if q.den = 1 then some q.num else none
  | .str s =>
    match pyFloatOfString s with
    | some q => if q.den = 1 then some q.num else none
    | none => none
  | _ => none

/-- The pydantic model `WorkoutStructured` of `app/workouts/schemas.py`
(it has no calories field: `model_validate` drops `calories_burned`). -/
structure WorkoutStructuredM where
  version : ℤ
  title : String
  muscle_groups : List String
  exercises : List SWExercise
deriving Repr, DecidableEq

/-- `WorkoutStructuredExercise.model_validate`: field presence plus the
schema bounds (name 1-200 chars, weight 0-500, sets 1-20, reps 1-200). -/
def validateExerciseM (v : JsonVal) : Option SWExercise :=
  match v with
  | .obj _ =>
    match v.get "name", (v.get "weight_kg").bind pydInt,
        (v.get "sets").bind pydInt, (v.get "reps").bind pydInt with
    | some (.str name), some w, some s, some r =>
      if 1 ≤ name.length ∧ name.length ≤ 200
          ∧ 0 ≤ w ∧ w ≤ 500 ∧ 1 ≤ s ∧ s ≤ 20 ∧ 1 ≤ r ∧ r ≤ 200 then
        some ⟨name, w, s, r⟩
      else none
    | _, _, _, _ => none
  | _ => none

/-- `WorkoutStructured.model_validate`: version defaults to 1 and is
bounded 1-100, title 1-120 chars, 1-4 muscle groups, 1-30 exercises. -/
def validateWorkoutStructured (v : JsonVal) : Option WorkoutStructuredM :=
  match v with
  | .obj _ =>
    let versionOpt :=
      match v.get "version" with
      | none => some 1
      | some x => pydInt x
    match versionOpt, v.get "title", v.get "muscle_groups", v.get "exercises" with
    | some ver, some (.str title), some (.arr mgs), some (.arr exs) =>
      if 1 ≤ ver ∧ ver ≤ 100 ∧ 1 ≤ title.length ∧ title.length ≤ 120 then
        match mgs.mapM (fun x =>
            match x with
            | .str s => some s
            | _ => none), exs.mapM validateExerciseM with
        | some groups, some exercises =>
          if 1 ≤ groups.length ∧ groups.length ≤ 4
              ∧ 1 ≤ exercises.length ∧ exercises.length ≤ 30 then
            some ⟨ver, title, groups, exercises⟩
          else none
        | _, _ => none
      else none
    | _, _, _, _ => none
  | _ => none

/-- `model_dump()` of the pydantic `WorkoutStructured`. -/
def WorkoutStructuredM.toJson (w : WorkoutStructuredM) : JsonVal :=
  .obj
    [("version", .int w.version), ("title", .str w.title),
     ("muscle_groups", .arr (w.muscle_groups.map .str)),
     ("exercises", .arr (w.exercises.map SWExercise.toJson))]

/-- Target-muscle-group inference of `finish_trainer_chat` (lines
271-286): `generation_context.target_muscle_group` when a non-blank
string, else the first two groups of the validated details, else the
placeholder. -/
def inferTargetMuscleGroup (w : WorkoutRow) : String :=
  let fromCtx : Option String :=
    match w.generation_context.get "target_muscle_group" with
    | some (.str s) => if pyStrip s = "" then none else some (pyStrip s)
    | _ => none
  match fromCtx with
  | some t => t
  | none =>
    let fromDetails : Option String :=
      match w.details with
      | .obj _ =>
        match validateWorkoutStructured w.details with
        | some structured =>
          if structured.muscle_groups.isEmpty then none
          else some (String.intercalate ", " (structured.muscle_groups.take 2))
        | none => none
      | _ => none
    match fromDetails with
    | some t => if t = "" then "Тренировка" else t
    | none => "Тренировка"

/-- The workout-row update `finish_trainer_chat` applies: details and
`updated_at` are rewritten (status untouched), calories only when the
normalized value was a positive int. -/
def applyFinishUpdate (structured : WorkoutStructuredM) (calories : Option ℤ) (now : String)
    (r : WorkoutRow) : WorkoutRow :=
  { r with
    details := structured.toJson
    updated_at := now
    calories_burned :=
      match calories with
      | some c => some c
      | none => r.calories_burned }

/-- Lookup block of `finish_trainer_chat` (lines 260-264): a usable
session `workout_id` and the workout row it names (by id and owner,
without a status filter). -/
def findSessionWorkout (st : TrainerChatState) (session : SessionRow) (userId : String) :
    Option (String × WorkoutRow) :=
  match session.workout_id with
  | none => none
  | some wid =>
    if pyStrip wid = "" then none
    else
      match st.workouts.find? (fun r => r.id == wid && r.user_id == userId) with
      | none => none
      | some w => some (wid, w)

/-- Generation block of `finish_trainer_chat` (lines 333-362): parse the
final reply, normalize it against the inferred target group, pick the
positive calories value and validate the pydantic model. -/
def finishGeneration (w : WorkoutRow) (reply : String) :
    Except String (WorkoutStructuredM × Option ℤ) :=
  let targetMuscleGroup := inferTargetMuscleGroup w
  let raw := pyStrip reply
  let parsed := extractJsonObject raw
  if ¬ pyTruthyOpt parsed then .error "AI returned invalid JSON for updated workout"
  else
    match normalizeStructuredWorkout (parsed.getD .null) targetMuscleGroup with
    | .error e => .error e
    | .ok normalized =>
      let calories : Option ℤ :=
        match normalized.calories_burned with
        | some c => if 0 < c then some c else none
        | none => none
      match validateWorkoutStructured normalized.toJson with
      | none => .error "workout structured validation failed"
      | some structured => .ok (structured, calories)

/-- Write-back block of `finish_trainer_chat` (lines 364-389): apply the
draft-filtered workout update, then mark the session `finished` when a
row was updated. -/
def finishApply (st : TrainerChatState) (session : SessionRow) (userId wid : String)
    (structured : WorkoutStructuredM) (calories : Option ℤ) (now : String) :
    Except String (Option WorkoutRow × TrainerChatState) :=
  let newWorkouts := st.workouts.map (fun r =>
    if matchesDraftFilter wid userId r then
      applyFinishUpdate structured calories now r
    else r)
  let updatedRows := (st.workouts.filter (matchesDraftFilter wid userId)).map
    (applyFinishUpdate structured calories now)
  match updatedRows.head? with
  | none => .ok (none, { st with workouts := newWorkouts })
  | some updatedWorkout =>
    let newSessions := st.sessions.map (fun srow =>
      if srow.id == session.id && srow.user_id == userId then
        { srow with status := "finished", updated_at := now }
      else srow)
    .ok (some updatedWorkout, ⟨newWorkouts, newSessions⟩)

/-- `finish_trainer_chat` (lines 252-404) over explicit collections:
`reply` is the completion service's final answer.  A missing/blank
session `workout_id`, a missing workout or a non-`draft` status return
`None` without touching any row; an unparseable reply raises before any
write; otherwise the *same* workout row is rewritten (status stays
`draft`) and the session is marked `finished`. -/
def finishTrainerChat (st : TrainerChatState) (session : SessionRow) (userId : String)
    (reply : String) (now : String) :
    Except String (Option WorkoutRow × TrainerChatState) :=
  match findSessionWorkout st session userId with
  | none => .ok (none, st)
  | some (wid, w) =>
    if w.status ≠ "draft" then .ok (none, st)
    else
      match finishGeneration w reply with
      | .error e => .error e
      | .ok (structured, calories) =>
        finishApply st session userId wid structured calories now

/-! ## Statement vocabulary and concrete instances used by the claims -/

/-- The raw exercise entries of a generation result (the list
`_normalize_structured_workout` iterates over). -/
def rawExercises (raw : JsonVal) : List JsonVal :=
  match raw.get "exercises" with
  | some (.arr l) => l
  | _ => []

/-- `r` is an element of `allowed` at minimal absolute distance from
`v` (the "nearest value" of the spec). -/
def isNearestIn (allowed : List ℤ) (v r : ℤ) : Prop :=
  r ∈ allowed ∧ ∀ a ∈ allowed, (r - v).natAbs ≤ (a - v).natAbs

/-- The claim-C1 invariant: exercise names pairwise distinct
case-insensitively. -/
def namesCIDistinct (w : StructuredWorkout) : Prop :=
  (w.exercises.map (fun e => pyLower e.name)).Nodup

/-- A generation result with two case-insensitive duplicate exercise
names, both valid. -/
def c1Raw : JsonVal :=
  .obj
    [("title", .str "T"),
     ("exercises",
       .arr [.obj [("name", .str "Squat")], .obj [("name", .str "SQUAT")]])]

/-- What `_normalize_structured_workout` returns on `c1Raw`. -/
def c1Out : StructuredWorkout :=
  ⟨1, "T", ["Спина"], [⟨"Squat", 4, 3, 12⟩, ⟨"SQUAT", 4, 3, 12⟩], none⟩

/-- An input on which `c1_nonempty` is exercised: every raw entry is
dropped (blank name), so normalization must fail. -/
def c1RawAllBlank : JsonVal :=
  .obj [("exercises", .arr [.obj [("name", .str "  ")], .obj [("name", .int 3)]])]

/-- The retry conjunct of claim C2: a returned name that still collides
case-insensitively with the supplied set implies the operation retried,
i.e. made at least a second generation call. -/
def c2ClaimedRetry : Prop :=
  ∀ existing reply e,
    (generateWorkoutExercise existing reply).result = .ok e →
    pyLower e.name ∈ existing.map pyLower →
    2 ≤ (generateWorkoutExercise existing reply).numCalls

/-- A reply whose exercise name collides with the supplied set
`["Squat"]`. -/
def c2Reply : String := "\x7b\"name\": \"Squat\"\x7d"

/-- The zero-count conjunct of claim C3 read over the cited
`AIService._calculate_attendance`: zero workouts in the window must be
reported as `real_frequency = 0`. -/
def c3ClaimedZeroCase : Prop :=
  ∀ fetch now, (aiCalculateAttendance fetch now).total_workouts = 0 →
    (aiCalculateAttendance fetch now).real_frequency = 0

/-- One workout row dated 2025-10-01. -/
def c3Rows : List JsonVal := [.obj [("date", .str "2025-10-01")]]

/-- 2025-10-12 as the `now` of the attendance window. -/
def c3Now : ℤ := ordinalDay 2025 10 12

/-- An attendance user with no custom split and no stored preference. -/
def attUserPlain : AttUser := ⟨none, none, none, none⟩

/-- Rotation user: non-pro, last trained the catalogue entry at index 2
(the spec's scenario). -/
def c4User : RotUser := ⟨false, none, some "Спина"⟩

/-- Two workout rows: a draft of user `u1` and a completed workout of
user `u2`. -/
def c5Db : List WorkoutRow :=
  [⟨"w1", "u1", "draft", "2025-01-01", "ai", .null, .null, none, none, "t0"⟩,
   ⟨"w2", "u2", "completed", "2025-01-02", "ai", .null, .null, none, none, "t0"⟩]

/-- A complete-draft payload. -/
def c5Req : CompleteRequest := ⟨"2025-02-02", .str "done", some 300, some 5⟩

/-- The draft workout the C6 scenario operates on. -/
def c6Workout : WorkoutRow :=
  ⟨"w1", "u1", "draft", "2025-10-12", "ai", .null,
   .obj [("target_muscle_group", .str "Спина")], none, none, "t0"⟩

/-- The active chat session linked to `c6Workout`. -/
def c6Session : SessionRow := ⟨"s1", "u1", "active", some "w1", some .null, "t0"⟩

/-- The two collections of the C6 scenario. -/
def c6State : TrainerChatState := ⟨[c6Workout], [c6Session]⟩

/-- The completion service's final reply in the C6 scenario. -/
def c6Reply : String :=
  "\x7b\"title\": \"X\", \"exercises\": [\x7b\"name\": \"Tiaga\", \"reps\": 10, \"sets\": 3, \"weight_kg\": 20\x7d]\x7d"

/-- The validated structured workout the C6 scenario writes back. -/
def c6Structured : WorkoutStructuredM := ⟨1, "X", ["Спина"], [⟨"Tiaga", 20, 3, 10⟩]⟩

/-- A reply whose first balanced span is valid JSON but whose
first-brace-to-last-brace slice is not. -/
def c7Raw : String := "\x7b\"a\": 1\x7d oops\x7d"

/-- A minimal valid structured reply, used as the repair answer. -/
def c7Repaired : String := "\x7b\"exercises\": [\x7b\"name\": \"X\"\x7d]\x7d"

/-- A raw generation result exercising snapping and the calorie clamp. -/
def c8Raw : JsonVal :=
  .obj
    [("exercises",
       .arr [.obj [("name", .str "Squat"), ("reps", .int 9), ("sets", .int 7),
                   ("weight_kg", .int 14)]]),
     ("calories_burned", .int 5)]

/-- What `_normalize_structured_workout` returns on `c8Raw`. -/
def c8Out : StructuredWorkout :=
  ⟨1, "Тренировка", ["X"], [⟨"Squat", 12, 6, 8⟩], some 20⟩

/-- Claim C9 read over the fetch-failure case of the attendance module's
`calculate_attendance`: a failing fetch must still produce a result, with
the safe fallback frequency 3 and empty history. -/
def c9ClaimedFallback : Prop :=
  ∀ user now, ∃ d, calculateAttendance (.error ()) user now = .ok d
    ∧ d.real_frequency = 3 ∧ d.total_workouts = 0

/-- Rows whose only entry has an unparseable date. -/
def c9BadRows : List JsonVal := [.obj [("date", .str "not-a-date")]]

/-- A raw generation result for the idempotence witness. -/
def c10Raw : JsonVal :=
  .obj
    [("title", .str " Силовая "), ("version", .int 7),
     ("muscle_groups", .arr [.str "Спина", .str "Бицепс", .str "Ноги"]),
     ("exercises",
       .arr [.obj [("name", .str " Тяга "), ("reps", .int 11), ("sets", .bool true),
                   ("weight_kg", .float (35/2))],
             .obj [("name", .str "Тяга")]]),
     ("calories_burned", .int 2500)]

/-- What `_normalize_structured_workout` returns on `c10Raw`. -/
def c10Out : StructuredWorkout :=
  ⟨7, "Силовая", ["Спина", "Бицепс"],
   [⟨"Тяга", 4, 2, 10⟩, ⟨"Тяга", 4, 3, 12⟩], some 2000⟩

/-- What `calculate_attendance` returns on `c3Rows` at `c3Now`. -/
def c3Data : AttendanceData :=
  ⟨1, 1/5, 1, some 739525, "1 день: все тело", ["Все тело"], none, none, false, false⟩

/-! ## Helper lemmas -/

theorem pyTruthyOpt_some (v : JsonVal) : pyTruthyOpt (some v) = v.truthy := rfl

theorem foldl_snap_le (l : List ℤ) (a v : ℤ) :
    ((l.foldl (fun best x => if (x - v).natAbs < (best - v).natAbs then x else best) a)
        - v).natAbs ≤ (a - v).natAbs := by
  induction l generalizing a with
  | nil => exact le_rfl
  | cons x xs ih =>
    simp only [List.foldl_cons]
    by_cases hx : (x - v).natAbs < (a - v).natAbs
    · rw [if_pos hx]
      exact le_trans (ih x) (le_of_lt hx)
    · rw [if_neg hx]
      exact ih a

theorem foldl_snap_mem (l : List ℤ) (a v : ℤ) :
    (l.foldl (fun best x => if (x - v).natAbs < (best - v).natAbs then x else best) a)
      ∈ a :: l := by
  induction l generalizing a with
  | nil => exact List.mem_cons_self a []
  | cons x xs ih =>
    simp only [List.foldl_cons]
    by_cases hx : (x - v).natAbs < (a - v).natAbs
    · rw [if_pos hx]
      rcases List.mem_cons.mp (ih x) with h1 | h1
      · rw [h1]; exact List.mem_cons_of_mem a (List.mem_cons_self x xs)
      · exact List.mem_cons_of_mem a (List.mem_cons_of_mem x h1)
    · rw [if_neg hx]
      rcases List.mem_cons.mp (ih a) with h1 | h1
      · rw [h1]; exact List.mem_cons_self a (x :: xs)
      · exact List.mem_cons_of_mem a (List.mem_cons_of_mem x h1)

theorem foldl_snap_min (l : List ℤ) (a v : ℤ) :
    ∀ b ∈ l,
      ((l.foldl (fun best x => if (x - v).natAbs < (best - v).natAbs then x else best) a)
          - v).natAbs ≤ (b - v).natAbs := by
  induction l generalizing a with
  | nil => intro b hb; exact absurd hb (List.not_mem_nil b)
  | cons x xs ih =>
    intro b hb
    simp only [List.foldl_cons]
    rcases List.mem_cons.mp hb with rfl | hb
    · by_cases hx : (b - v).natAbs < (a - v).natAbs
      · rw [if_pos hx]
        exact foldl_snap_le xs b v
      · rw [if_neg hx]
        exact le_trans (foldl_snap_le xs a v) (le_of_not_lt hx)
    · by_cases hx : (x - v).natAbs < (a - v).natAbs
      · rw [if_pos hx]
        exact ih x b hb
      · rw [if_neg hx]
        exact ih a b hb

theorem snapTo_nearest (allowed : List ℤ) (h : allowed ≠ []) (v : ℤ) :
    isNearestIn allowed v (snapTo allowed v) := by
  cases allowed with
  | nil => exact absurd rfl h
  | cons a rest =>
    refine ⟨foldl_snap_mem rest a v, ?_⟩
    intro b hb
    rcases List.mem_cons.mp hb with rfl | hb
    · exact foldl_snap_le rest b v
    · exact foldl_snap_min rest a v b hb

theorem snapTo_fixed (allowed : List ℤ) (v : ℤ) (hv : v ∈ allowed) :
    snapTo allowed v = v := by
  have hne : allowed ≠ [] := List.ne_nil_of_mem hv
  have h := (snapTo_nearest allowed hne v).2 v hv
  simp only [sub_self, Int.natAbs_zero, Nat.le_zero, Int.natAbs_eq_zero,
    sub_eq_zero] at h
  exact h

theorem find?_eq_filter_head? {α : Type} (p : α → Bool) (l : List α) :
    l.find? p = (l.filter p).head? := by
  induction l with
  | nil => rfl
  | cons a t ih =>
    by_cases ha : p a
    · rw [List.find?_cons_of_pos _ ha, List.filter_cons_of_pos ha, List.head?_cons]
    · rw [List.find?_cons_of_neg _ ha, List.filter_cons_of_neg ha, ih]

theorem findIdx?_eq_none_of_not_mem {s : String} {l : List String} (h : s ∉ l) :
    l.findIdx? (fun g => g = s) = none := by
  induction l with
  | nil => rfl
  | cons a t ih =>
    have ha : ¬ (a = s) := fun e => h (e ▸ List.mem_cons_self a t)
    have ht : s ∉ t := fun m => h (List.mem_cons_of_mem a m)
    simp [List.findIdx?_cons, ha, ih ht]

/-! ## Claim C4 -/

set_option maxRecDepth 4000 in
/-- C4: for a non-pro user whose `last_muscle_group` is the standard
catalogue entry at index `i`, `get_next_muscle_group_for_user` returns
the entry at `(i+1) mod length`; an absent or unknown value yields the
first entry. -/
theorem c4_next_muscle_group (user : RotUser) (hpro : user.is_pro = false) :
    (∀ i : ℕ, ∀ hi : i < MUSCLE_GROUPS_COMBINED.length,
      user.last_muscle_group = some (MUSCLE_GROUPS_COMBINED.get ⟨i, hi⟩) →
      getNextMuscleGroupForUser user
        = MUSCLE_GROUPS_COMBINED.getD ((i + 1) % MUSCLE_GROUPS_COMBINED.length) "")
    ∧ (user.last_muscle_group = none →
        getNextMuscleGroupForUser user = MUSCLE_GROUPS_COMBINED.getD 0 "")
    ∧ (∀ s, user.last_muscle_group = some s → s ∉ MUSCLE_GROUPS_COMBINED →
        getNextMuscleGroupForUser user = MUSCLE_GROUPS_COMBINED.getD 0 "") := by
  obtain ⟨pro, g, last⟩ := user
  simp only at hpro
  subst hpro
  refine ⟨?_, ?_, ?_⟩
  · intro i hi hlast
    simp only at hlast
    subst hlast
    have hi6 : i < 6 := hi
    interval_cases i <;> rfl
  · intro h
    simp only at h
    subst h
    rfl
  · intro s hs hnot
    simp only at hs
    subst hs
    by_cases hse : s = ""
    · subst hse; rfl
    · simp [getNextMuscleGroupForUser, hse, findIdx?_eq_none_of_not_mem hnot]

/-- Witness for C4: the spec's scenario, `"Спина"` at index 2 of 6
advances to the entry at index 3. -/
theorem c4_next_muscle_group_witness :
    c4User.is_pro = false ∧ getNextMuscleGroupForUser c4User = "Плечи, пресс" :=
  ⟨rfl, (c4_next_muscle_group c4User rfl).1 2 (by decide) rfl⟩

/-! ## Claim C5 -/

/-- C5: a complete-draft call on an absent, foreign or non-draft row
returns not-found with the collection untouched; on the caller's draft it
mutates the row in place to `completed` with the supplied payload, never
creating a second row and preserving the id. -/
theorem c5_complete_workout_draft (db : List WorkoutRow) (userId workoutId : String)
    (data : CompleteRequest) (now : String) :
    (db.find? (matchesDraftFilter workoutId userId) = none →
      completeWorkoutDraft db userId workoutId data now = (none, db))
    ∧ (∀ w, db.find? (matchesDraftFilter workoutId userId) = some w →
        (completeWorkoutDraft db userId workoutId data now).1
            = some (applyCompleteUpdate data now w)
        ∧ (applyCompleteUpdate data now w).id = w.id
        ∧ (applyCompleteUpdate data now w).status = "completed"
        ∧ (completeWorkoutDraft db userId workoutId data now).2.length = db.length
        ∧ ∀ i : ℕ, ∀ hi : i < db.length,
            ∀ hi2 : i < (completeWorkoutDraft db userId workoutId data now).2.length,
            (matchesDraftFilter workoutId userId (db.get ⟨i, hi⟩) = false →
              (completeWorkoutDraft db userId workoutId data now).2.get ⟨i, hi2⟩
                = db.get ⟨i, hi⟩)
            ∧ (matchesDraftFilter workoutId userId (db.get ⟨i, hi⟩) = true →
              (completeWorkoutDraft db userId workoutId data now).2.get ⟨i, hi2⟩
                = applyCompleteUpdate data now (db.get ⟨i, hi⟩))) := by
  constructor
  · intro h
    simp only [completeWorkoutDraft, h]
  · intro w hw
    have hhead : ((db.filter (matchesDraftFilter workoutId userId)).map
        (applyCompleteUpdate data now)).head? = some (applyCompleteUpdate data now w) := by
      rw [List.head?_map, ← find?_eq_filter_head?, hw]
      rfl
    have hres : completeWorkoutDraft db userId workoutId data now
        = (some (applyCompleteUpdate data now w),
           db.map (fun r => if matchesDraftFilter workoutId userId r then
             applyCompleteUpdate data now r else r)) := by
      unfold completeWorkoutDraft
      rw [hw]
      show (((db.filter (matchesDraftFilter workoutId userId)).map
          (applyCompleteUpdate data now)).head?,
        db.map fun r => if matchesDraftFilter workoutId userId r then
          applyCompleteUpdate data now r else r) = _
      rw [hhead]
    rw [hres]
    refine ⟨rfl, rfl, rfl, by simp, ?_⟩
    intro i hi hi2
    constructor
    · intro hmf
      simp only [List.get_eq_getElem] at hmf
      simp [List.get_eq_getElem, List.getElem_map, hmf]
    · intro hmt
      simp only [List.get_eq_getElem] at hmt
      simp [List.get_eq_getElem, List.getElem_map, hmt]

/-- Witness for C5: completing user `u1`'s draft `w1` mutates it in
place; the foreign completed row is untouched. -/
theorem c5_complete_workout_draft_witness :
    (completeWorkoutDraft c5Db "u1" "w1" c5Req "t1").1
      = some ⟨"w1", "u1", "completed", "2025-02-02", "ai", .str "done", .null,
          some 300, some 5, "t1"⟩
    ∧ (completeWorkoutDraft c5Db "u1" "w1" c5Req "t1").2.length = c5Db.length := by
  have h := (c5_complete_workout_draft c5Db "u1" "w1" c5Req "t1").2
    ⟨"w1", "u1", "draft", "2025-01-01", "ai", .null, .null, none, none, "t0"⟩ rfl
  exact ⟨h.1, h.2.2.2.1⟩

/-! ## Claim C3 -/

theorem attendanceCore_spec (workouts : List JsonVal) (cutoff : ℤ) :
    (0 ≤ (attendanceCore workouts cutoff).1 ∧ (attendanceCore workouts cutoff).1 ≤ 5)
    ∧ (0 < (attendanceCore workouts cutoff).2.2.1 →
        (attendanceCore workouts cutoff).2.1
          = pyRound1 (((attendanceCore workouts cutoff).2.2.1 : ℚ) / (30 / 7))
        ∧ (attendanceCore workouts cutoff).1
          = min 5 (max 1 (pyRound (((attendanceCore workouts cutoff).2.2.1 : ℚ) / (30 / 7)))))
    ∧ ((attendanceCore workouts cutoff).2.2.1 = 0 →
        (attendanceCore workouts cutoff).1 = 0 ∧ (attendanceCore workouts cutoff).2.1 = 0) := by
  unfold attendanceCore
  by_cases he : workouts.isEmpty
  · rw [if_pos he]
    exact ⟨⟨le_refl 0, by norm_num⟩, fun h => absurd h (lt_irrefl 0), fun h => ⟨rfl, rfl⟩⟩
  · rw [if_neg he]
    simp only []
    generalize (((workouts.filterMap fun w =>
      match w.get "date" with
      | some (.str s) => parseIsoDatetime s
      | _ => none).filter fun t => cutoff ≤ t)).length = n
    rw [if_pos (by norm_num : (0:ℚ) < 30 / 7)]
    by_cases hn0 : 0 < n
    · rw [if_pos hn0]
      refine ⟨⟨?_, ?_⟩, fun h => ⟨rfl, rfl⟩, fun h => absurd h (by omega)⟩
      · exact le_trans (by norm_num) (le_min (by norm_num) (le_max_left 1 _))
      · exact min_le_left 5 _
    · rw [if_neg hn0]
      have hn : n = 0 := by omega
      subst hn
      refine ⟨⟨le_refl 0, by norm_num⟩, fun h => absurd h (lt_irrefl 0), fun h => ⟨rfl, ?_⟩⟩
      norm_num [pyRound1, pyRound]

theorem calculateAttendance_ok_fields {rows : List JsonVal} {user : AttUser} {now : ℤ}
    {d : AttendanceData} (h : calculateAttendance (.ok rows) user now = .ok d) :
    d.real_frequency = (attendanceCore rows (now - 30)).1
    ∧ d.average_weekly = (attendanceCore rows (now - 30)).2.1
    ∧ d.total_workouts = (attendanceCore rows (now - 30)).2.2.1 := by
  simp only [calculateAttendance, Except.ok.injEq] at h
  subst h
  exact ⟨rfl, rfl, rfl⟩

/-- C3 (amended): `calculate_attendance` keeps `real_frequency` in
`{0,…,5}`; with a positive window count `n` it reports
`average_weekly = round(n/(30/7), 1)` and
`real_frequency = clamp(round(n/(30/7)), 1, 5)`, and with `n = 0` it
reports frequency 0 and average 0; `AIService._calculate_attendance`
computes the same window count `n`, `average_weekly = round(n/(30/7), 1)`
and `real_frequency = clamp(round(n/(30/7)), 1, 5)` on every parseable
non-empty fetch — so the clamp applies even when the window count is
zero, where it reports `real_frequency = 1`, not 0. -/
theorem c3_attendance_frequency (rows : List JsonVal) (user : AttUser) (now : ℤ)
    (d : AttendanceData) (h : calculateAttendance (.ok rows) user now = .ok d) :
    (0 ≤ d.real_frequency ∧ d.real_frequency ≤ 5)
    ∧ (0 < d.total_workouts →
        d.average_weekly = pyRound1 ((d.total_workouts : ℚ) / (30 / 7))
        ∧ d.real_frequency = min 5 (max 1 (pyRound ((d.total_workouts : ℚ) / (30 / 7)))))
    ∧ (d.total_workouts = 0 → d.real_frequency = 0 ∧ d.average_weekly = 0)
    ∧ (∀ rows2 : List JsonVal, ∀ now2 : ℤ, ∀ ds : List ℤ,
        rows2.isEmpty = false → datesOfWorkouts rows2 = some ds →
        (ds.filter (fun t => now2 - 30 ≤ t)).length = 0 →
        (aiCalculateAttendance (.ok rows2) now2).real_frequency = 1
        ∧ (aiCalculateAttendance (.ok rows2) now2).total_workouts = 0)
    ∧ (∀ rows2 : List JsonVal, ∀ now2 : ℤ, ∀ ds : List ℤ, ∀ n : ℕ,
        rows2.isEmpty = false → datesOfWorkouts rows2 = some ds →
        (ds.filter (fun t => now2 - 30 ≤ t)).length = n →
        (aiCalculateAttendance (.ok rows2) now2).total_workouts = n
        ∧ (aiCalculateAttendance (.ok rows2) now2).average_weekly
            = pyRound1 ((n : ℚ) / (30 / 7))
        ∧ (aiCalculateAttendance (.ok rows2) now2).real_frequency
            = min 5 (max 1 (pyRound ((n : ℚ) / (30 / 7))))) := by
  obtain ⟨h1, h2, h3⟩ := calculateAttendance_ok_fields h
  have hs := attendanceCore_spec rows (now - 30)
  refine ⟨?_, ?_, ?_, ?_, ?_⟩
  · rw [h1]; exact hs.1
  · intro hpos
    rw [h3] at hpos
    obtain ⟨ha, hr⟩ := hs.2.1 hpos
    exact ⟨by rw [h2, h3, ha], by rw [h1, h3, hr]⟩
  · intro hz
    rw [h3] at hz
    obtain ⟨ha, hr⟩ := hs.2.2 hz
    exact ⟨by rw [h1, ha], by rw [h2, hr]⟩
  · intro rows2 now2 ds hne hds hlen
    simp only [aiCalculateAttendance, hne, Bool.false_eq_true, if_false, hds]
    rw [hlen]
    constructor
    · show min 5 (max 1 (pyRound (if (0:ℚ) < 30 / 7 then ((0:ℕ) : ℚ) / (30/7) else 0))) = 1
      norm_num [pyRound]
    · rfl
  · intro rows2 now2 ds n hne hds hlen
    simp only [aiCalculateAttendance, hne, Bool.false_eq_true, if_false, hds]
    rw [hlen]
    refine ⟨rfl, ?_, ?_⟩
    · show pyRound1 (if (0:ℚ) < 30 / 7 then (n : ℚ) / (30/7) else 0)
        = pyRound1 ((n : ℚ) / (30 / 7))
      rw [if_pos (by norm_num : (0:ℚ) < 30/7)]
    · show min 5 (max 1 (pyRound (if (0:ℚ) < 30 / 7 then (n : ℚ) / (30/7) else 0)))
        = min 5 (max 1 (pyRound ((n : ℚ) / (30 / 7))))
      rw [if_pos (by norm_num : (0:ℚ) < 30/7)]

theorem c3_concrete_core : attendanceCore c3Rows (c3Now - 30) = (1, 1/5, 1, some 739525) := by
  have h30 : (0:ℚ) < 30/7 := by norm_num
  unfold attendanceCore
  rw [if_neg (by decide)]
  simp only []
  rw [if_pos h30]
  have hfil : ((c3Rows.filterMap fun w =>
      match w.get "date" with
      | some (.str s) => parseIsoDatetime s
      | _ => none).filter fun t => c3Now - 30 ≤ t) = [739525] := by decide
  rw [hfil]
  simp only [Prod.mk.injEq]
  refine ⟨?_, ?_, rfl, rfl⟩
  · rw [if_pos (by decide : 0 < [(739525:ℤ)].length)]
    norm_num [pyRound]
  · norm_num [pyRound1, pyRound]

theorem c3_concrete_value : calculateAttendance (.ok c3Rows) attUserPlain c3Now = .ok c3Data := by
  simp only [calculateAttendance]
  rw [c3_concrete_core]
  rfl

/-- Witness for C3: one workout 11 days before `now` gives
`real_frequency = 1` and `average_weekly = 0.2` on the attendance path,
and the AI path computes the same window count with the clamped rounded
frequency. -/
theorem c3_attendance_frequency_witness :
    calculateAttendance (.ok c3Rows) attUserPlain c3Now = .ok c3Data
    ∧ (0 ≤ c3Data.real_frequency ∧ c3Data.real_frequency ≤ 5)
    ∧ c3Data.average_weekly = pyRound1 ((c3Data.total_workouts : ℚ) / (30 / 7))
    ∧ (aiCalculateAttendance (.ok c3Rows) c3Now).total_workouts = 1
    ∧ (aiCalculateAttendance (.ok c3Rows) c3Now).real_frequency = 1 := by
  have h := c3_attendance_frequency c3Rows attUserPlain c3Now c3Data c3_concrete_value
  have hai := h.2.2.2.2 c3Rows c3Now [739525] 1 rfl (by decide) (by decide)
  refine ⟨c3_concrete_value, h.1, (h.2.1 (by norm_num [c3Data])).1, hai.1, ?_⟩
  rw [hai.2.2]
  norm_num [pyRound]

/-- Counterexample for C3: the cited `AIService._calculate_attendance`
reports `real_frequency = 1`, not 0, when the 30-day window holds zero
workouts. -/
theorem c3_counterexample :
    ¬ c3ClaimedZeroCase
    ∧ (aiCalculateAttendance (.ok []) 0).total_workouts = 0
    ∧ (aiCalculateAttendance (.ok []) 0).real_frequency = 1 := by
  refine ⟨?_, rfl, rfl⟩
  intro h
  have h2 := h (.ok []) 0 rfl
  exact absurd h2 (by decide)

/-! ## Claim C9 -/

/-- Counterexample for C9: a failing fetch makes the attendance module's
`calculate_attendance` propagate the error instead of returning the
fallback. -/
theorem c9_counterexample :
    ¬ c9ClaimedFallback ∧ calculateAttendance (.error ()) attUserPlain 0 = .error () := by
  refine ⟨?_, rfl⟩
  intro h
  obtain ⟨d, hd, _⟩ := h attUserPlain 0
  have hco : calculateAttendance (.error ()) attUserPlain 0 = Except.error () := rfl
  rw [hco] at hd
  exact Except.noConfusion hd

/-- C9 (amended): `AIService._calculate_attendance` never raises and
returns the safe fallback (`real_frequency = 3`, empty history) on a
failing fetch or an unparseable date; the attendance module's
`calculate_attendance` skips unparseable rows without raising but
propagates fetch failures. -/
theorem c9_ai_attendance_fallback (fetch : Except Unit (List JsonVal)) (now : ℤ) :
    (aiCalculateAttendance (.error ()) now = aiAttendanceFallback)
    ∧ (∀ rows, fetch = .ok rows → rows.isEmpty = false → datesOfWorkouts rows = none →
        aiCalculateAttendance fetch now = aiAttendanceFallback)
    ∧ aiAttendanceFallback.real_frequency = 3
    ∧ aiAttendanceFallback.total_workouts = 0
    ∧ (∀ rows user, ∃ d, calculateAttendance (.ok rows) user now = .ok d) := by
  refine ⟨rfl, ?_, rfl, rfl, ?_⟩
  · intro rows hf hne hdates
    subst hf
    simp [aiCalculateAttendance, hne, hdates]
  · intro rows user
    exact ⟨_, rfl⟩

/-- Witness for C9: a row with an unparseable date yields the fallback
with frequency 3. -/
theorem c9_ai_attendance_fallback_witness :
    aiCalculateAttendance (.ok c9BadRows) 0 = aiAttendanceFallback
    ∧ aiAttendanceFallback.real_frequency = 3 := by
  have h := c9_ai_attendance_fallback (.ok c9BadRows) 0
  exact ⟨h.2.1 c9BadRows rfl rfl rfl, h.2.2.1⟩

/-! ## Claim C2 -/

/-- Counterexample for C2: with existing name `"Squat"` and a reply
repeating exactly that name, the operation returns the colliding
exercise after a single generation call — no retry, no temperature
escalation. -/
theorem c2_counterexample :
    ¬ c2ClaimedRetry
    ∧ (generateWorkoutExercise ["Squat"] c2Reply).result = .ok ⟨"Squat", 4, 3, 12⟩
    ∧ pyLower "Squat" ∈ (["Squat"].map pyLower)
    ∧ (generateWorkoutExercise ["Squat"] c2Reply).numCalls = 1 := by
  refine ⟨?_, rfl, by decide, rfl⟩
  intro h
  have h2 := h ["Squat"] c2Reply ⟨"Squat", 4, 3, 12⟩ rfl (by decide)
  rw [show (generateWorkoutExercise ["Squat"] c2Reply).numCalls = 1 from rfl] at h2
  exact absurd h2 (by omega)

/-- C2 (amended): single-exercise generation makes exactly one
completion call at fixed temperature 0.4, returns that call's normalized
exercise even when its name collides with the supplied set, and fails
only when the reply is not valid JSON. -/
theorem c2_single_call_no_retry (existing : List String) (reply : String) :
    (generateWorkoutExercise existing reply).numCalls = 1
    ∧ (generateWorkoutExercise existing reply).temperatures = [2/5]
    ∧ (∀ p, extractJsonObject (pyStrip reply) = some p → p.truthy = true →
        (generateWorkoutExercise existing reply).result = normalizeExercise p)
    ∧ (pyTruthyOpt (extractJsonObject (pyStrip reply)) = false →
        (generateWorkoutExercise existing reply).result
          = .error "AI returned invalid JSON for exercise") := by
  refine ⟨?_, ?_, ?_, ?_⟩
  · simp only [generateWorkoutExercise]
    split <;> rfl
  · simp only [generateWorkoutExercise]
    split <;> rfl
  · intro p hp htr
    simp only [generateWorkoutExercise, hp, pyTruthyOpt_some, htr, if_true, Option.getD_some]
  · intro hb
    simp only [generateWorkoutExercise, hb, Bool.false_eq_true, if_false]

/-- Witness for C2: a colliding reply still yields a normalized result
from the single call. -/
theorem c2_single_call_no_retry_witness :
    (generateWorkoutExercise ["Squat"] c2Reply).numCalls = 1
    ∧ (generateWorkoutExercise ["Squat"] c2Reply).temperatures = [2/5]
    ∧ (generateWorkoutExercise ["Squat"] c2Reply).result
        = normalizeExercise (.obj [("name", .str "Squat")]) := by
  have h := c2_single_call_no_retry ["Squat"] c2Reply
  exact ⟨h.1, h.2.1, h.2.2.1 (.obj [("name", .str "Squat")]) rfl rfl⟩

/-! ## Claim C7 -/

/-- Counterexample for C7: on a reply whose first balanced span is valid
JSON but which has a later stray closing brace, the gateway's
first-brace-to-last-brace slice fails to parse and a repair request is
issued — the code does not extract the first balanced span. -/
theorem c7_counterexample :
    extractJsonObject c7Raw = none
    ∧ extractFirstBalancedJson c7Raw = some (.obj [("a", .int 1)])
    ∧ (generateWorkoutStructuredParse c7Raw c7Repaired "G").repairTemperatures = [0] :=
  ⟨rfl, rfl, rfl⟩

/-- C7 (amended): the gateway parses the slice from the first opening to
the LAST closing brace; on failure it issues exactly one repair request
at temperature 0, and if the repaired reply also fails to parse the call
fails permanently — never more than one repair. -/
theorem c7_parse_repair_policy (raw repairedRaw chosenGroup : String) :
    ((generateWorkoutStructuredParse raw repairedRaw chosenGroup).repairTemperatures.length ≤ 1)
    ∧ (∀ t ∈ (generateWorkoutStructuredParse raw repairedRaw chosenGroup).repairTemperatures,
        t = 0)
    ∧ (∀ p, extractJsonObject raw = some p → p.truthy = true →
        generateWorkoutStructuredParse raw repairedRaw chosenGroup
          = ⟨normalizeStructuredWorkout p chosenGroup, []⟩)
    ∧ (pyTruthyOpt (extractJsonObject raw) = false →
        (generateWorkoutStructuredParse raw repairedRaw chosenGroup).repairTemperatures = [0]
        ∧ (∀ p2, extractJsonObject repairedRaw = some p2 → p2.truthy = true →
            (generateWorkoutStructuredParse raw repairedRaw chosenGroup).result
              = normalizeStructuredWorkout p2 chosenGroup)
        ∧ (pyTruthyOpt (extractJsonObject repairedRaw) = false →
            (generateWorkoutStructuredParse raw repairedRaw chosenGroup).result
              = .error "AI returned invalid JSON for structured workout")) := by
  refine ⟨?_, ?_, ?_, ?_⟩
  · simp only [generateWorkoutStructuredParse]
    split
    · simp
    · split <;> simp
  · simp only [generateWorkoutStructuredParse]
    split
    · intro t ht; exact absurd ht (List.not_mem_nil t)
    · split <;> (intro t ht; rw [List.mem_singleton] at ht; exact ht)
  · intro p hp htr
    simp only [generateWorkoutStructuredParse, hp, pyTruthyOpt_some, htr, if_true,
      Option.getD_some]
  · intro hb
    simp only [generateWorkoutStructuredParse, hb, Bool.false_eq_true, if_false]
    by_cases hb2 : pyTruthyOpt (extractJsonObject repairedRaw)
    · rw [if_pos hb2]
      refine ⟨rfl, ?_, ?_⟩
      · intro p2 hp2 htr2
        simp only [hp2, Option.getD_some]
      · intro hfalse
        rw [hb2] at hfalse
        exact absurd hfalse (by simp)
    · rw [if_neg hb2]
      refine ⟨rfl, ?_, fun hfa => rfl⟩
      intro p2 hp2 htr2
      rw [hp2, pyTruthyOpt_some] at hb2
      exact absurd htr2 (by simpa using hb2)

/-- Witness for C7: an unparseable first reply followed by a valid
repair reply yields exactly one repair request at temperature 0. -/
theorem c7_parse_repair_policy_witness :
    (generateWorkoutStructuredParse "hi" c7Repaired "G").repairTemperatures = [0]
    ∧ (generateWorkoutStructuredParse "hi" c7Repaired "G").result
        = normalizeStructuredWorkout
            (.obj [("exercises", .arr [.obj [("name", .str "X")]])]) "G" := by
  have h := (c7_parse_repair_policy "hi" c7Repaired "G").2.2.2 rfl
  exact ⟨h.1, h.2.1 (.obj [("exercises", .arr [.obj [("name", .str "X")]])]) rfl rfl⟩

theorem dropWhile_idem (p : Char → Bool) (l : List Char) :
    (l.dropWhile p).dropWhile p = l.dropWhile p := by
  induction l with
  | nil => rfl
  | cons a t ih =>
    by_cases hp : p a
    · rw [List.dropWhile_cons, if_pos hp]
      exact ih
    · rw [List.dropWhile_cons, if_neg hp, List.dropWhile_cons, if_neg hp]

theorem dropWhile_suffix (p : Char → Bool) (l : List Char) : l.dropWhile p <:+ l := by
  induction l with
  | nil => exact List.suffix_refl []
  | cons a t ih =>
    by_cases hp : p a
    · rw [List.dropWhile_cons, if_pos hp]
      exact ih.trans (List.suffix_cons a t)
    · rw [List.dropWhile_cons, if_neg hp]

theorem dropWhile_eq_self_of_prefix {p : Char → Bool} {x y : List Char}
    (hx : x.dropWhile p = x) (hyx : y <+: x) : y.dropWhile p = y := by
  cases y with
  | nil => rfl
  | cons b t =>
    obtain ⟨s, hs⟩ := hyx
    subst hs
    have hb : ¬ p b := by
      have h0 := List.dropWhile_eq_self_iff.mp hx (by simp)
      simpa using h0
    rw [List.dropWhile_cons, if_neg hb]

theorem stripChars_idem (l : List Char) : stripChars (stripChars l) = stripChars l := by
  unfold stripChars
  have h1 : (l.dropWhile isPySpace).dropWhile isPySpace = l.dropWhile isPySpace :=
    dropWhile_idem isPySpace l
  set m := l.dropWhile isPySpace with hm
  set u := m.reverse.dropWhile isPySpace with hu
  have hur : u.reverse <+: m := by
    have h2 : u <:+ m.reverse := dropWhile_suffix isPySpace m.reverse
    have h3 : u.reverse <+: m.reverse.reverse := List.reverse_prefix.mpr h2
    simpa using h3
  have h4 : u.reverse.dropWhile isPySpace = u.reverse :=
    dropWhile_eq_self_of_prefix h1 hur
  rw [h4]
  have h5 : u.reverse.reverse.dropWhile isPySpace = u.reverse.reverse := by
    rw [List.reverse_reverse]
    exact dropWhile_idem isPySpace m.reverse
  rw [h5, List.reverse_reverse]

theorem pyStrip_idem (s : String) : pyStrip (pyStrip s) = pyStrip s := by
  unfold pyStrip
  rw [show (String.mk (stripChars s.data)).data = stripChars s.data from rfl]
  rw [stripChars_idem]

/-! ## Normalization inversion lemmas -/

theorem itemName_some {item : JsonVal} {n : String} (h : itemName item = some n) :
    pyStrip n = n ∧ n ≠ "" := by
  unfold itemName at h
  split at h
  · split at h
    · exact Option.noConfusion h
    · rw [Option.some.injEq] at h
      subst h
      constructor
      · exact pyStrip_idem _
      · assumption
  · exact Option.noConfusion h

section

attribute [local irreducible] snapTo

theorem normalizeExerciseItem_some {item : JsonVal} {e : SWExercise}
    (h : normalizeExerciseItem item = some e) :
    (itemName item = some e.name ∧ pyStrip e.name = e.name ∧ e.name ≠ "")
    ∧ e.reps = snapTo allowedReps (pyIntOr (item.get "reps") 12)
    ∧ e.sets = snapTo allowedSets (pyIntOr (item.get "sets") 3)
    ∧ e.weight_kg = snapTo allowedWeight (pyIntOr (item.get "weight_kg") 4) := by
  unfold normalizeExerciseItem at h
  rw [Option.map_eq_some'] at h
  obtain ⟨name, hn, he⟩ := h
  subst he
  obtain ⟨hs, hne⟩ := itemName_some hn
  exact ⟨⟨hn, hs, hne⟩, rfl, rfl, rfl⟩

theorem normalizeExerciseItem_of_name {item : JsonVal} {n : String}
    (h : itemName item = some n) :
    normalizeExerciseItem item
      = some
        { name := n
          weight_kg := snapTo allowedWeight (pyIntOr (item.get "weight_kg") 4)
          sets := snapTo allowedSets (pyIntOr (item.get "sets") 3)
          reps := snapTo allowedReps (pyIntOr (item.get "reps") 12) } := by
  unfold normalizeExerciseItem
  rw [h]
  rfl

theorem normalizeExercise_ok {raw : JsonVal} {e : SWExercise}
    (h : normalizeExercise raw = .ok e) :
    (itemName raw = some e.name ∧ pyStrip e.name = e.name ∧ e.name ≠ "")
    ∧ e.reps = snapTo allowedReps (pyIntOr (raw.get "reps") 12)
    ∧ e.sets = snapTo allowedSets (pyIntOr (raw.get "sets") 3)
    ∧ e.weight_kg = snapTo allowedWeight (pyIntOr (raw.get "weight_kg") 4) := by
  unfold normalizeExercise at h
  cases hn : itemName raw with
  | none => rw [hn] at h; exact Except.noConfusion h
  | some name =>
    rw [hn] at h
    rw [Except.ok.injEq] at h
    subst h
    obtain ⟨hs, hne⟩ := itemName_some hn
    exact ⟨⟨rfl, hs, hne⟩, rfl, rfl, rfl⟩

theorem normalize_ok_inv {raw : JsonVal} {fb : String} {w : StructuredWorkout}
    (h : normalizeStructuredWorkout raw fb = .ok w) :
    w.version = normVersion raw
    ∧ w.title = pyStrip (normTitle raw)
    ∧ w.muscle_groups = normMuscleGroups raw fb
    ∧ w.exercises = ((rawExercises raw).take 12).filterMap normalizeExerciseItem
    ∧ w.calories_burned = normalizeCalories (raw.get "calories_burned")
    ∧ w.exercises ≠ [] := by
  unfold normalizeStructuredWorkout at h
  split at h
  case _ exl heq =>
    by_cases he : exl.isEmpty
    · rw [if_pos he] at h
      exact Except.noConfusion h
    · rw [if_neg he] at h
      by_cases hf : ((exl.take 12).filterMap normalizeExerciseItem).isEmpty
      · rw [if_pos hf] at h
        exact Except.noConfusion h
      · rw [if_neg hf] at h
        rw [Except.ok.injEq] at h
        subst h
        refine ⟨rfl, rfl, rfl, ?_, rfl, ?_⟩
        · simp [rawExercises, heq]
        · simpa using hf
  case _ hne => exact Except.noConfusion h

end

theorem normalizeCalories_some_bounds {v : Option JsonVal} {c : ℤ}
    (h : normalizeCalories v = some c) : 20 ≤ c ∧ c ≤ 2000 := by
  unfold normalizeCalories at h
  rw [Option.map_eq_some'] at h
  obtain ⟨n, -, hc⟩ := h
  subst hc
  exact ⟨le_max_left 20 _, max_le (by norm_num) (min_le_left 2000 n)⟩

/-! ## Claim C1 -/

/-- Counterexample for C1: a raw result whose two exercises are named
`"Squat"` and `"SQUAT"` normalizes successfully with both names kept —
no case-insensitive de-duplication happens. -/
theorem c1_counterexample :
    normalizeStructuredWorkout c1Raw "Спина" = .ok c1Out ∧ ¬ namesCIDistinct c1Out := by
  constructor
  · rfl
  · unfold namesCIDistinct
    decide

/-- C1 (amended): normalization drops non-dict entries and blank or
non-string names, keeps at most 12 entries and keeps duplicate names as
they come (no case-insensitive de-duplication); zero surviving
exercises — including a missing or empty raw list — is a hard error,
never an empty exercise list. -/
theorem c1_empty_rejected_no_dedup (raw : JsonVal) (fb : String) :
    (∀ w, normalizeStructuredWorkout raw fb = .ok w →
      w.exercises ≠ [] ∧ w.exercises.length ≤ 12 ∧ ∀ e ∈ w.exercises, e.name ≠ "")
    ∧ (∀ exl, raw.get "exercises" = some (.arr exl) → exl ≠ [] →
        (exl.take 12).filterMap normalizeExerciseItem = [] →
        normalizeStructuredWorkout raw fb
          = .error "structured workout has no valid exercises")
    ∧ (raw.get "exercises" = none →
        normalizeStructuredWorkout raw fb
          = .error "structured workout has empty exercises")
    ∧ (∀ exl, raw.get "exercises" = some (.arr exl) → exl = [] →
        normalizeStructuredWorkout raw fb
          = .error "structured workout has empty exercises") := by
  refine ⟨?_, ?_, ?_, ?_⟩
  · intro w h
    obtain ⟨-, -, -, hex, -, hne⟩ := normalize_ok_inv h
    refine ⟨hne, ?_, ?_⟩
    · rw [hex]
      exact le_trans (List.length_filterMap_le _ _) (List.length_take_le 12 _)
    · intro e he
      rw [hex] at he
      obtain ⟨item, -, hsome⟩ := List.mem_filterMap.mp he
      exact (normalizeExerciseItem_some hsome).1.2.2
  · intro exl heq hne0 hfm
    unfold normalizeStructuredWorkout
    rw [heq]
    show (if exl.isEmpty = true then
        (Except.error "structured workout has empty exercises" : Except String StructuredWorkout)
      else
        if ((exl.take 12).filterMap normalizeExerciseItem).isEmpty = true then
          Except.error "structured workout has no valid exercises"
        else
          Except.ok
            { version := normVersion raw, title := pyStrip (normTitle raw),
              muscle_groups := normMuscleGroups raw fb,
              exercises := (exl.take 12).filterMap normalizeExerciseItem,
              calories_burned := normalizeCalories (raw.get "calories_burned") }) = _
    rw [if_neg (by simpa using hne0)]
    simp [hfm]
  · intro hnone
    unfold normalizeStructuredWorkout
    rw [hnone]
  · intro exl heq hnil
    subst hnil
    unfold normalizeStructuredWorkout
    rw [heq]
    rfl

/-- Witness for C1: the duplicate-name output is non-empty and within
the cap, and an all-blank raw list is a hard error. -/
theorem c1_empty_rejected_no_dedup_witness :
    c1Out.exercises ≠ [] ∧ c1Out.exercises.length ≤ 12
    ∧ normalizeStructuredWorkout c1RawAllBlank "X"
        = .error "structured workout has no valid exercises" := by
  have h1 := (c1_empty_rejected_no_dedup c1Raw "Спина").1 c1Out rfl
  have h2 := (c1_empty_rejected_no_dedup c1RawAllBlank "X").2.1
    [.obj [("name", .str "  ")], .obj [("name", .int 3)]] rfl (by simp) rfl
  exact ⟨h1.1, h1.2.1, h2⟩

/-! ## Claim C8 -/

/-- C8: every normalized exercise (in a workout and standalone) has its
reps/sets/weight snapped to the nearest value of the fixed allowed sets,
and a surviving calories value is clamped to `[20, 2000]`, with
absent/boolean/unparseable raw calories becoming `None`. -/
theorem c8_numeric_snapping (raw : JsonVal) (fb : String) (w : StructuredWorkout)
    (h : normalizeStructuredWorkout raw fb = .ok w) :
    (∀ e ∈ w.exercises, e.reps ∈ allowedReps ∧ e.sets ∈ allowedSets
      ∧ e.weight_kg ∈ allowedWeight)
    ∧ (∀ c, w.calories_burned = some c → 20 ≤ c ∧ c ≤ 2000)
    ∧ (raw.get "calories_burned" = none → w.calories_burned = none)
    ∧ (∀ s, raw.get "calories_burned" = some (.str s) → pyFloatOfString s = none →
        w.calories_burned = none)
    ∧ (∀ b, raw.get "calories_burned" = some (.bool b) → w.calories_burned = none)
    ∧ (∀ e ∈ w.exercises, ∃ item, item ∈ (rawExercises raw).take 12
        ∧ normalizeExerciseItem item = some e)
    ∧ (∀ item e, normalizeExerciseItem item = some e →
        isNearestIn allowedReps (pyIntOr (item.get "reps") 12) e.reps
        ∧ isNearestIn allowedSets (pyIntOr (item.get "sets") 3) e.sets
        ∧ isNearestIn allowedWeight (pyIntOr (item.get "weight_kg") 4) e.weight_kg)
    ∧ (∀ item e2, normalizeExercise item = .ok e2 →
        isNearestIn allowedReps (pyIntOr (item.get "reps") 12) e2.reps
        ∧ isNearestIn allowedSets (pyIntOr (item.get "sets") 3) e2.sets
        ∧ isNearestIn allowedWeight (pyIntOr (item.get "weight_kg") 4) e2.weight_kg) := by
  obtain ⟨-, -, -, hex, hcal, -⟩ := normalize_ok_inv h
  have hnearest : ∀ item : JsonVal, ∀ e : SWExercise, normalizeExerciseItem item = some e →
      isNearestIn allowedReps (pyIntOr (item.get "reps") 12) e.reps
      ∧ isNearestIn allowedSets (pyIntOr (item.get "sets") 3) e.sets
      ∧ isNearestIn allowedWeight (pyIntOr (item.get "weight_kg") 4) e.weight_kg := by
    intro item e hsome
    obtain ⟨-, hr, hs2, hw2⟩ := normalizeExerciseItem_some hsome
    rw [hr, hs2, hw2]
    exact ⟨snapTo_nearest allowedReps (by decide) _,
      snapTo_nearest allowedSets (by decide) _,
      snapTo_nearest allowedWeight (by decide) _⟩
  refine ⟨?_, ?_, ?_, ?_, ?_, ?_, hnearest, ?_⟩
  · intro e he
    rw [hex] at he
    obtain ⟨item, -, hsome⟩ := List.mem_filterMap.mp he
    obtain ⟨h1, h2, h3⟩ := hnearest item e hsome
    exact ⟨h1.1, h2.1, h3.1⟩
  · intro c hc
    rw [hcal] at hc
    exact normalizeCalories_some_bounds hc
  · intro hg
    rw [hcal, hg]
    rfl
  · intro s hg hp
    rw [hcal, hg]
    simp [normalizeCalories, hp]
  · intro b hg
    rw [hcal, hg]
    rfl
  · intro e he
    rw [hex] at he
    exact List.mem_filterMap.mp he
  · intro item e2 h2
    obtain ⟨-, hr, hs2, hw2⟩ := normalizeExercise_ok h2
    rw [hr, hs2, hw2]
    exact ⟨snapTo_nearest _ (by decide) _, snapTo_nearest _ (by decide) _,
      snapTo_nearest _ (by decide) _⟩

/-- Witness for C8: reps 9 snaps to 8, sets 7 to 6, weight 14 to 12 and
calories 5 is clamped to 20. -/
theorem c8_numeric_snapping_witness :
    normalizeStructuredWorkout c8Raw "X" = .ok c8Out
    ∧ (∀ e ∈ c8Out.exercises, e.reps ∈ allowedReps ∧ e.sets ∈ allowedSets
        ∧ e.weight_kg ∈ allowedWeight)
    ∧ (∀ c, c8Out.calories_burned = some c → 20 ≤ c ∧ c ≤ 2000) := by
  have h := c8_numeric_snapping c8Raw "X" c8Out rfl
  exact ⟨rfl, h.1, h.2.1⟩

/-! ## Claim C10 -/

theorem normVersion_pos (raw : JsonVal) : 1 ≤ normVersion raw := by
  unfold normVersion
  split
  · split
    · split
      · omega
      · omega
    · omega
  · omega

theorem normTitle_strip_ne (raw : JsonVal) : pyStrip (normTitle raw) ≠ "" := by
  unfold normTitle
  split
  · split
    · decide
    · assumption
  · decide

theorem normMuscleGroups_ne_nil (raw : JsonVal) (fb : String) :
    normMuscleGroups raw fb ≠ [] ∧ (normMuscleGroups raw fb).length ≤ 2 := by
  unfold normMuscleGroups
  constructor
  · intro hcon
    rw [List.map_eq_nil_iff, List.take_eq_nil_iff] at hcon
    rcases hcon with h2 | h2
    · norm_num at h2
    · revert h2
      split
      · split
        · simp
        · intro h2
          simp_all
      · simp
  · rw [List.length_map]
    exact le_trans (List.length_take_le 2 _) (le_refl 2)

theorem filterMap_id_of_forall {α : Type} (f : α → Option α) (l : List α)
    (h : ∀ x ∈ l, f x = some x) : l.filterMap f = l := by
  induction l with
  | nil => rfl
  | cons a t ih =>
    rw [List.filterMap_cons, h a (List.mem_cons_self a t),
      ih (fun x hx => h x (List.mem_cons_of_mem a hx))]

theorem normalizeExerciseItem_toJson (e : SWExercise)
    (hstrip : pyStrip e.name = e.name) (hne : e.name ≠ "")
    (hr : e.reps ∈ allowedReps) (hs : e.sets ∈ allowedSets)
    (hw : e.weight_kg ∈ allowedWeight) :
    normalizeExerciseItem e.toJson = some e := by
  obtain ⟨n, wk, st, rp⟩ := e
  simp only at hstrip hne hr hs hw
  have hn : itemName (SWExercise.toJson ⟨n, wk, st, rp⟩) = some n := by
    show (if pyStrip n = "" then none else some (pyStrip n)) = some n
    rw [hstrip, if_neg hne]
  rw [normalizeExerciseItem_of_name hn]
  show some (⟨n, snapTo allowedWeight wk, snapTo allowedSets st, snapTo allowedReps rp⟩ : SWExercise)
    = some (⟨n, wk, st, rp⟩ : SWExercise)
  rw [snapTo_fixed _ _ hw, snapTo_fixed _ _ hs, snapTo_fixed _ _ hr]

/-- C10: normalization is idempotent — re-normalizing the dict a
successful normalization returned (under any fallback group) succeeds
and returns the same object. -/
theorem c10_normalize_idempotent (raw : JsonVal) (fb : String) (w : StructuredWorkout)
    (h : normalizeStructuredWorkout raw fb = .ok w) :
    ∀ fb2 : String, normalizeStructuredWorkout w.toJson fb2 = .ok w := by
  intro fb2
  obtain ⟨hv, ht, hm, hex, hcal, hne⟩ := normalize_ok_inv h
  have hver : 1 ≤ w.version := by rw [hv]; exact normVersion_pos raw
  have htitle_strip : pyStrip w.title = w.title := by rw [ht]; exact pyStrip_idem _
  have htitle_ne : w.title ≠ "" := by rw [ht]; exact normTitle_strip_ne raw
  have hmg := normMuscleGroups_ne_nil raw fb
  have hmg_ne : w.muscle_groups ≠ [] := by rw [hm]; exact hmg.1
  have hmg_le : w.muscle_groups.length ≤ 2 := by rw [hm]; exact hmg.2
  have hex_le : w.exercises.length ≤ 12 := by
    rw [hex]
    exact le_trans (List.length_filterMap_le _ _) (List.length_take_le 12 _)
  have hex_items : ∀ e ∈ w.exercises, normalizeExerciseItem e.toJson = some e := by
    intro e he
    rw [hex] at he
    obtain ⟨item, -, hsome⟩ := List.mem_filterMap.mp he
    obtain ⟨⟨-, hstr, hnee⟩, hr, hs2, hw2⟩ := normalizeExerciseItem_some hsome
    refine normalizeExerciseItem_toJson e hstr hnee ?_ ?_ ?_
    · rw [hr]; exact (snapTo_nearest allowedReps (by decide) _).1
    · rw [hs2]; exact (snapTo_nearest allowedSets (by decide) _).1
    · rw [hw2]; exact (snapTo_nearest allowedWeight (by decide) _).1
  have hgex : w.toJson.get "exercises" = some (.arr (w.exercises.map SWExercise.toJson)) := rfl
  have hmap_ne : (w.exercises.map SWExercise.toJson).isEmpty = false := by
    rw [List.isEmpty_eq_false]
    simp only [ne_eq, List.map_eq_nil_iff]
    exact hne
  have hmap_take : (w.exercises.map SWExercise.toJson).take 12
      = w.exercises.map SWExercise.toJson := by
    apply List.take_of_length_le
    rw [List.length_map]
    exact hex_le
  have hexercises2 : ((w.exercises.map SWExercise.toJson).take 12).filterMap
      normalizeExerciseItem = w.exercises := by
    rw [hmap_take, List.filterMap_map]
    exact filterMap_id_of_forall _ _ (fun x hx => hex_items x hx)
  have hex_ne2 : (w.exercises.isEmpty) = false := by
    rw [List.isEmpty_eq_false]
    exact hne
  have hver2 : normVersion w.toJson = w.version := by
    unfold normVersion
    show (if w.version < 1 then 1 else w.version) = w.version
    rw [if_neg (by omega)]
  have htitle2 : normTitle w.toJson = w.title := by
    unfold normTitle
    show (if pyStrip w.title = "" then "Тренировка" else w.title) = w.title
    rw [htitle_strip, if_neg htitle_ne]
  have hstrfun : (pyStr ∘ JsonVal.str) = (id : String → String) := by
    funext s
    rfl
  have hmg2 : normMuscleGroups w.toJson fb2 = w.muscle_groups := by
    unfold normMuscleGroups
    show ((if (w.muscle_groups.map JsonVal.str).isEmpty = true then [JsonVal.str fb2]
        else w.muscle_groups.map JsonVal.str).take 2).map pyStr = w.muscle_groups
    have hmge : (w.muscle_groups.map JsonVal.str).isEmpty = false := by
      rw [List.isEmpty_eq_false]
      simp only [ne_eq, List.map_eq_nil_iff]
      exact hmg_ne
    rw [hmge]
    simp only [Bool.false_eq_true, if_false]
    rw [List.take_of_length_le (by rw [List.length_map]; exact hmg_le)]
    rw [List.map_map, hstrfun, List.map_id]
  have hcal2 : normalizeCalories (w.toJson.get "calories_burned") = w.calories_burned := by
    have hgc : w.toJson.get "calories_burned"
        = some (match w.calories_burned with
          | some c => JsonVal.int c
          | none => JsonVal.null) := rfl
    rw [hgc]
    cases hc : w.calories_burned with
    | none => rfl
    | some c =>
      have hb := normalizeCalories_some_bounds (v := raw.get "calories_burned")
        (by rw [← hcal]; exact hc)
      show some (max 20 (min 2000 c)) = some c
      rw [min_eq_right hb.2, max_eq_right hb.1]
  unfold normalizeStructuredWorkout
  rw [hgex]
  show (if (w.exercises.map SWExercise.toJson).isEmpty = true then
      (Except.error "structured workout has empty exercises" : Except String StructuredWorkout)
    else
      if (((w.exercises.map SWExercise.toJson).take 12).filterMap
          normalizeExerciseItem).isEmpty = true then
        Except.error "structured workout has no valid exercises"
      else
        Except.ok
          { version := normVersion w.toJson, title := pyStrip (normTitle w.toJson),
            muscle_groups := normMuscleGroups w.toJson fb2,
            exercises := ((w.exercises.map SWExercise.toJson).take 12).filterMap
              normalizeExerciseItem,
            calories_burned := normalizeCalories (w.toJson.get "calories_burned") }) = .ok w
  rw [hmap_ne]
  simp only [Bool.false_eq_true, if_false]
  rw [hexercises2, hex_ne2]
  simp only [Bool.false_eq_true, if_false]
  rw [hver2, htitle2, htitle_strip, hmg2, hcal2]


/-- Witness for C10: a raw result exercising defaulting, snapping,
truncation and clamping normalizes to `c10Out`, and re-normalizing
`c10Out` under a different fallback group returns `c10Out` itself. -/
theorem c10_normalize_idempotent_witness :
    normalizeStructuredWorkout c10Raw "FB" = .ok c10Out
    ∧ normalizeStructuredWorkout c10Out.toJson "OTHER" = .ok c10Out :=
  ⟨rfl, c10_normalize_idempotent c10Raw "FB" c10Out rfl "OTHER"⟩

/-- A first match for a predicate is also the first match for any
stronger predicate it satisfies. -/
theorem find?_of_find?_stronger {α : Type} {p q : α → Bool} {l : List α} {w : α}
    (h : l.find? p = some w) (hw : q w = true) (himp : ∀ x, q x = true → p x = true) :
    l.find? q = some w := by
  induction l with
  | nil => exact absurd h (by simp)
  | cons a t ih =>
    by_cases hpa : p a = true
    · rw [List.find?_cons_of_pos _ hpa] at h
      injection h with h
      subst h
      rw [List.find?_cons_of_pos _ hw]
    · rw [List.find?_cons_of_neg _ hpa] at h
      have hqa : ¬ q a = true := fun hq => hpa (himp a hq)
      rw [List.find?_cons_of_neg _ hqa]
      exact ih h

/-- Inversion of the lookup block: a found pair records the session's
`workout_id` and the first row matching it for this user. -/
theorem findSessionWorkout_some {st : TrainerChatState} {session : SessionRow}
    {userId wid : String} {w : WorkoutRow}
    (h : findSessionWorkout st session userId = some (wid, w)) :
    session.workout_id = some wid ∧ pyStrip wid ≠ ""
    ∧ st.workouts.find? (fun r => r.id == wid && r.user_id == userId) = some w := by
  unfold findSessionWorkout at h
  cases hs : session.workout_id with
  | none => rw [hs] at h; exact Option.noConfusion h
  | some wid2 =>
    rw [hs] at h
    replace h : (if pyStrip wid2 = "" then none
        else match st.workouts.find? (fun r => r.id == wid2 && r.user_id == userId) with
          | none => none
          | some w => some (wid2, w)) = some (wid, w) := h
    by_cases hb : pyStrip wid2 = ""
    · rw [if_pos hb] at h
      exact Option.noConfusion h
    · rw [if_neg hb] at h
      cases hf : st.workouts.find? (fun r => r.id == wid2 && r.user_id == userId) with
      | none => rw [hf] at h; exact Option.noConfusion h
      | some w2 =>
        rw [hf] at h
        rw [Option.some.injEq, Prod.mk.injEq] at h
        obtain ⟨h1, h2⟩ := h
        subst h1
        subst h2
        exact ⟨rfl, hb, hf⟩

/-- C6: a finish call whose session names no usable workout (no or blank
`workout_id`, or no row with that id for this user) or whose workout is
not `draft` returns not-found with both collections untouched; otherwise
it rewrites the matched workout row's details in place — the update
never touches the `status` field, so the row stays `draft` — and marks
the session `finished`. -/
theorem c6_finish_trainer_chat (st : TrainerChatState) (session : SessionRow)
    (userId reply now : String) :
    ((findSessionWorkout st session userId = none →
        finishTrainerChat st session userId reply now = .ok (none, st))
      ∧ (session.workout_id = none → findSessionWorkout st session userId = none)
      ∧ (∀ wid, session.workout_id = some wid →
          st.workouts.find? (fun r => r.id == wid && r.user_id == userId) = none →
          findSessionWorkout st session userId = none)
      ∧ (∀ wid w, findSessionWorkout st session userId = some (wid, w) →
          w.status ≠ "draft" →
          finishTrainerChat st session userId reply now = .ok (none, st)))
    ∧ (∀ wid w structured calories,
        findSessionWorkout st session userId = some (wid, w) →
        w.status = "draft" →
        finishGeneration w reply = .ok (structured, calories) →
        finishTrainerChat st session userId reply now
          = .ok (some (applyFinishUpdate structured calories now w),
              ⟨st.workouts.map (fun r =>
                  if matchesDraftFilter wid userId r then
                    applyFinishUpdate structured calories now r
                  else r),
                st.sessions.map (fun srow =>
                  if srow.id == session.id && srow.user_id == userId then
                    { srow with status := "finished", updated_at := now }
                  else srow)⟩)
          ∧ (∀ r : WorkoutRow,
              (applyFinishUpdate structured calories now r).status = r.status
              ∧ (applyFinishUpdate structured calories now r).id = r.id
              ∧ (applyFinishUpdate structured calories now r).details = structured.toJson)
          ∧ (applyFinishUpdate structured calories now w).status = "draft"
          ∧ (applyFinishUpdate structured calories now w).id = wid) := by
  constructor
  · refine ⟨?_, ?_, ?_, ?_⟩
    · intro h
      unfold finishTrainerChat
      rw [h]
    · intro h
      unfold findSessionWorkout
      rw [h]
    · intro wid hwid hf
      unfold findSessionWorkout
      rw [hwid]
      show (if pyStrip wid = "" then none
        else match st.workouts.find? (fun r => r.id == wid && r.user_id == userId) with
          | none => none
          | some w => some (wid, w)) = none
      by_cases hb : pyStrip wid = ""
      · rw [if_pos hb]
      · rw [if_neg hb, hf]
    · intro wid w hpre hnd
      unfold finishTrainerChat
      rw [hpre]
      show (if w.status ≠ "draft" then Except.ok (none, st) else _) = Except.ok (none, st)
      rw [if_pos hnd]
  · intro wid w structured calories hpre hdraft hgen
    obtain ⟨hwid, hb, hfind⟩ := findSessionWorkout_some hpre
    have hp := List.find?_some hfind
    have hq : matchesDraftFilter wid userId w = true := by
      simp only [matchesDraftFilter, Bool.and_eq_true] at hp ⊢
      exact ⟨hp, by rw [hdraft]; rfl⟩
    have hfind2 : st.workouts.find? (matchesDraftFilter wid userId) = some w := by
      refine find?_of_find?_stronger hfind hq ?_
      intro x hx
      simp only [matchesDraftFilter, Bool.and_eq_true] at hx
      simp only [Bool.and_eq_true]
      exact hx.1
    have hhead : ((st.workouts.filter (matchesDraftFilter wid userId)).map
        (applyFinishUpdate structured calories now)).head?
        = some (applyFinishUpdate structured calories now w) := by
      rw [List.head?_map, ← find?_eq_filter_head?, hfind2]
      rfl
    have hid : w.id = wid := by
      simp only [Bool.and_eq_true, beq_iff_eq] at hp
      exact hp.1
    refine ⟨?_, fun r => ⟨rfl, rfl, rfl⟩, ?_, ?_⟩
    · unfold finishTrainerChat
      rw [hpre]
      show (if w.status ≠ "draft" then Except.ok (none, st)
        else match finishGeneration w reply with
          | .error e => .error e
          | .ok (structured, calories) =>
            finishApply st session userId wid structured calories now) = _
      rw [if_neg (by rw [hdraft]; exact fun hc => hc rfl), hgen]
      show finishApply st session userId wid structured calories now = _
      simp only [finishApply]
      rw [hhead]
    · show w.status = "draft"
      exact hdraft
    · show w.id = wid
      exact hid

/-- The C6 theorem at the concrete scenario: an active session linked to
a draft workout, a parseable final reply, and the resulting rewrite. -/
theorem c6_finish_trainer_chat_witness :
    findSessionWorkout c6State c6Session "u1" = some ("w1", c6Workout)
    ∧ c6Workout.status = "draft"
    ∧ finishGeneration c6Workout c6Reply = Except.ok (c6Structured, (none : Option ℤ))
    ∧ finishTrainerChat c6State c6Session "u1" c6Reply "t1"
        = Except.ok (some (applyFinishUpdate c6Structured none "t1" c6Workout),
            ⟨[applyFinishUpdate c6Structured none "t1" c6Workout],
              [⟨"s1", "u1", "finished", some "w1", some .null, "t1"⟩]⟩) := by
  refine ⟨rfl, rfl, rfl, ?_⟩
  have h := ((c6_finish_trainer_chat c6State c6Session "u1" c6Reply "t1").2
      "w1" c6Workout c6Structured none rfl rfl rfl).1
  exact h.trans (by rfl)

end FitnessBackend
